import Mathlib

/-! Cart store of the restaurant site (`src/cart_manager.js`)

A shallow embedding of the `CartManager` class: the line-item list, the four
mutating operations (`addItem`, `removeItem`, `updateQuantity`, `clearCart`),
the derived getters and the storage round trip, followed by the properties
proved about them.

Modelling conventions
* JavaScript numbers that the cart handles are integers (`Int`).
* A string or number field is *falsy* when it is `""` or `0`; a field that is
  missing (`undefined`) is represented by the falsy value of its type.
* `null`/`undefined` objects are `Option`.
* Timestamps (`new Date().toISOString()`) are milliseconds since the epoch.
* A method returns the new manager state together with its completion:
  `.ok v` for `return v`, `.error e` for an exception that leaves the method.
* Collaborator calls with no effect on the modelled state (`showToast`,
  `updateCartDisplay`, `console.*`, `setTimeout`) appear as comments.
-/

namespace ArmenianGrill

/-! ## Data model -/

/-- Milliseconds since the epoch. -/
abbrev Timestamp := Nat

/-- A catalog record (`DISHES` entries of `menu_data.js`), as consumed by the cart. -/
structure Dish where
  id : String
  name : String
  description : String
  price : Int
  weight : Option String
  image : String
  category : String
  allergens : Option (List String)
  preparationTime : Int
  deriving DecidableEq, Repr

/-- One entry of `dish.sizes`; the `selectedSize` argument of `addItem`. -/
structure Size where
  name : String
  price : Int
  weight : Option String
  deriving DecidableEq, Repr

/-- The object built by `createCartItem` and kept in `this.items`. -/
structure LineItem where
  id : String
  dishId : String
  name : String
  description : String
  price : Int
  quantity : Int
  size : Option String
  weight : Option String
  image : String
  category : String
  allergens : List String
  addedAt : Timestamp
  updatedAt : Timestamp
  deriving DecidableEq, Repr

/-- The `options` argument of `addItem`: every key it may carry that
`createCartItem` spreads over the item (`...options`), plus `openCart`. -/
structure Options where
  id : Option String := none
  dishId : Option String := none
  name : Option String := none
  description : Option String := none
  price : Option Int := none
  quantity : Option Int := none
  size : Option (Option String) := none
  weight : Option (Option String) := none
  image : Option String := none
  category : Option String := none
  allergens : Option (List String) := none
  addedAt : Option Timestamp := none
  updatedAt : Option Timestamp := none
  openCart : Bool := false
  deriving DecidableEq, Repr

/-- The value stored under `STORAGE_KEYS.CART`, as `StorageUtils.get` returns it. -/
structure CartData where
  items : Option (List LineItem)
  savedAt : Option Timestamp
  version : Option String
  deriving DecidableEq, Repr

/-- A value in the property bag of a telemetry event. -/
inductive PropValue where
  | num (n : Int)
  | str (s : String)
  | bool (b : Bool)
  | null
  deriving DecidableEq, Repr

/-- One call received by `window.analytics.track`; `name` is `none` when the
event name passed was `undefined`. -/
structure TrackedEvent where
  name : Option String
  data : List (String × PropValue)
  deriving DecidableEq, Repr

/-- The counters of `this.stats`. -/
structure Stats where
  addedItems : Nat
  removedItems : Nat
  clearedCount : Nat
  checkoutAttempts : Nat
  deriving DecidableEq, Repr

/-- The state of a `CartManager` together with the collaborators whose content
the cart determines: the cart key of local storage, the telemetry log and the
number of `confirm(...)` dialogs put to the user. -/
structure CartManager where
  items : List LineItem
  stats : Stats
  storage : Option CartData
  tracked : List TrackedEvent
  confirmPrompts : Nat
  deriving DecidableEq, Repr

/-- A DOM element returned by `document.querySelector`. -/
structure DomElement where
  tagName : String
  deriving DecidableEq, Repr

/-- Exceptions raised by the JavaScript runtime. -/
inductive JsError where
  | typeError (message : String)
  deriving DecidableEq, Repr

/-- What the host (browser, user) contributes to one method call. -/
structure Env where
  /-- The built-in `String.prototype.toLowerCase`. -/
  toLowerCase : String → String
  /-- The clock read by `new Date()` / `Date.now()`. -/
  now : Timestamp
  /-- The result of `document.querySelector('.cart-badge')`. -/
  cartBadge : Option DomElement
  /-- Whether `localStorage.setItem` succeeds (it throws on quota excess). -/
  storageWritable : Bool
  /-- Whether `window.analytics` is set. -/
  hasAnalytics : Bool
  /-- The answer of the user to `confirm(MESSAGES.warnings.confirmClear)`. -/
  confirmClear : Bool
  /-- The local hour read by `new Date().getHours()`. -/
  hours : Nat
  /-- The local minute read by `new Date().getMinutes()`. -/
  minutes : Nat
  /-- The result of `Utils.generateId('cart')` (random token and clock). -/
  generatedId : String
  /-- The result of `new Date().toLocaleDateString()`. -/
  localeDate : String

/-! ## Configuration (`src/js/config.js`) -/

/-- The constant `CONFIG.cart.minOrderAmount`. -/
def CONFIG.cart.minOrderAmount : Int := 150

/-- The constant `CONFIG.cart.deliveryFee`. -/
def CONFIG.cart.deliveryFee : Int := 30

/-- The constant `CONFIG.cart.freeDeliveryThreshold`. -/
def CONFIG.cart.freeDeliveryThreshold : Int := 300

/-- The constant `CONFIG.cart.maxItems`. -/
def CONFIG.cart.maxItems : Int := 50

/-- The constant `CONFIG.delivery.estimatedTime.min`. -/
def CONFIG.delivery.estimatedTime.min : Int := 30

/-- The table `ANALYTICS_EVENTS`. -/
def ANALYTICS_EVENTS : List (String × String) :=
  [("PAGE_VIEW", "page_view"),
   ("MENU_CATEGORY_CLICK", "menu_category_click"),
   ("ADD_TO_CART", "add_to_cart"),
   ("REMOVE_FROM_CART", "remove_from_cart"),
   ("CART_OPENED", "cart_opened"),
   ("CHECKOUT_STARTED", "checkout_started"),
   ("ORDER_COMPLETED", "order_completed"),
   ("FORM_SUBMITTED", "form_submitted"),
   ("PHONE_CALL", "phone_call"),
   ("DIRECTIONS_REQUESTED", "directions_requested"),
   ("SOCIAL_CLICK", "social_click")]

/-- Property access `ANALYTICS_EVENTS.KEY`: `none` is `undefined`. -/
def analyticsEvent (key : String) : Option String :=
  ANALYTICS_EVENTS.lookup key

/-! ## Array primitives -/

/-- The method `Array.prototype.findIndex`; `none` stands for `-1`. -/
def findIndex {α : Type} (p : α → Bool) : List α → Option Nat
  | [] => none
  | x :: xs => if p x then some 0 else (findIndex p xs).map (· + 1)

/-- In-place update of the object at index `idx` (`arr[idx].field = value`). -/
def modifyAt {α : Type} (f : α → α) : Nat → List α → List α
  | _, [] => []
  | 0, x :: xs => f x :: xs
  | n + 1, x :: xs => x :: modifyAt f n xs

/-- The call `arr.splice(idx, 1)`. -/
def splice1 {α : Type} : Nat → List α → List α
  | _, [] => []
  | 0, _ :: xs => xs
  | n + 1, x :: xs => x :: splice1 n xs

/-! ## Calculations -/

/-- The method `getItemCount`. -/
def getItemCount (items : List LineItem) : Int :=
  items.foldl (fun sum item => sum + item.quantity) 0

/-- The method `getSubtotal`. -/
def getSubtotal (items : List LineItem) : Int :=
  items.foldl (fun sum item => sum + item.price * item.quantity) 0

/-- The method `getDeliveryFee`. -/
def getDeliveryFee (items : List LineItem) : Int :=
  let subtotal := getSubtotal items
  if subtotal ≥ CONFIG.cart.freeDeliveryThreshold then 0 else CONFIG.cart.deliveryFee

/-- The method `getTotal`. -/
def getTotal (items : List LineItem) : Int :=
  getSubtotal items + getDeliveryFee items

/-! ## Collaborators -/

/-- The method `trackEvent`: forwards to `window.analytics.track` when present. -/
def trackEvent (env : Env) (cm : CartManager) (eventName : Option String)
    (data : List (String × PropValue)) : CartManager :=
  if env.hasAnalytics then
    { cm with tracked := cm.tracked ++
        [{ name := eventName,
           data := data ++ [("component", .str "cart"), ("timestamp", .num env.now)] }] }
  else cm

/-- The method `saveCartToStorage`; `StorageUtils.set` swallows a failing write. -/
def saveCartToStorage (env : Env) (cm : CartManager) : CartManager :=
  let cartData : CartData :=
    { items := some cm.items, savedAt := some env.now, version := some "1.0" }
  if env.storageWritable then { cm with storage := some cartData } else cm

/-- The method `animateCartBadge`: `Utils.$` is `document.querySelector`, which
returns one element or `null`, and neither has a `forEach` method. -/
def animateCartBadge (env : Env) : Except JsError Unit :=
  let badges := env.cartBadge
  match badges with
  | none => .error (.typeError "Cannot read properties of null (reading forEach)")
  | some _ => .error (.typeError "badges.forEach is not a function")

/-- The method `showAddedFeedback`. -/
def showAddedFeedback (env : Env) (_item : LineItem) : Except JsError Unit :=
  -- this.showToast(itemName + " додано до кошика!", 'success')
  animateCartBadge env

/-- The method `MenuDataService.getDishById`. -/
def getDishById (catalog : List Dish) (id : String) : Option Dish :=
  catalog.find? (fun dish => dish.id == id)

/-! ## Cart operations -/

/-- The method `createCartItem`; the spread `...options` comes last, so a key
of `options` replaces the value computed from the dish. -/
def createCartItem (env : Env) (dish : Dish) (selectedSize : Option Size) (quantity : Int)
    (options : Options) : LineItem :=
  let price := match selectedSize with
    | some s => s.price
    | none => dish.price
  let weight := match selectedSize with
    | some s => s.weight
    | none => dish.weight
  { id := options.id.getD (dish.id ++ (match selectedSize with
      | some s => "-" ++ env.toLowerCase s.name
      | none => "")),
    dishId := options.dishId.getD dish.id,
    name := options.name.getD dish.name,
    description := options.description.getD dish.description,
    price := options.price.getD price,
    quantity := options.quantity.getD quantity,
    size := options.size.getD (selectedSize.map (·.name)),
    weight := options.weight.getD weight,
    image := options.image.getD dish.image,
    category := options.category.getD dish.category,
    allergens := options.allergens.getD (dish.allergens.getD []),
    addedAt := options.addedAt.getD env.now,
    updatedAt := options.updatedAt.getD env.now }

/-- The part of `addItem` that follows the change of `this.items`
(from `this.saveCartToStorage()` to `return true`). -/
def addItemAfterMutation (env : Env) (cm : CartManager) (dish : Dish)
    (selectedSize : Option Size) (quantity : Int) (item : LineItem) :
    CartManager × Except JsError Bool :=
  let cm := saveCartToStorage env cm
  -- this.updateCartDisplay()
  match showAddedFeedback env item with
  | .error e => (cm, .error e)
  | .ok _ =>
    -- if (this.items.length === 1 || options.openCart) setTimeout(() => this.openCart(), 1000)
    let cm := { cm with stats := { cm.stats with addedItems := cm.stats.addedItems + 1 } }
    let cm := trackEvent env cm (analyticsEvent "ADD_TO_CART")
      [("dish_id", .str dish.id),
       ("dish_name", .str dish.name),
       ("price", .num item.price),
       ("size", match selectedSize with
          | some s => if s.name = "" then .null else .str s.name
          | none => .null),
       ("quantity", .num quantity),
       ("cart_total", .num (getSubtotal cm.items))]
    (cm, .ok true)

/-- The method `addItem(dish, selectedSize, quantity, options)`. -/
def addItem (env : Env) (cm : CartManager) (dish : Option Dish) (selectedSize : Option Size)
    (quantity : Int) (options : Options) : CartManager × Except JsError Bool :=
  match dish with
  | none => (cm, .ok false)
  | some dish =>
    if dish.id = "" then (cm, .ok false)
    else if quantity ≤ 0 then (cm, .ok false)
    else if getItemCount cm.items + quantity > CONFIG.cart.maxItems then
      -- this.showToast("Максимум 50 товарів у кошику", 'warning')
      (cm, .ok false)
    else
      let item := createCartItem env dish selectedSize quantity options
      let existingItemIndex := findIndex (fun i => i.id == item.id) cm.items
      match existingItemIndex with
      | some idx =>
        match cm.items.get? idx with
        | none => (cm, .error (.typeError "Cannot read properties of undefined"))
        | some existingItem =>
          let newQuantity := existingItem.quantity + quantity
          if newQuantity > 10 then
            -- this.showToast("Максимум 10 одиниць одного товару", 'warning')
            (cm, .ok false)
          else
            let items := modifyAt
              (fun e => { e with quantity := newQuantity, updatedAt := env.now }) idx cm.items
            addItemAfterMutation env { cm with items := items } dish selectedSize quantity item
      | none =>
        addItemAfterMutation env { cm with items := cm.items ++ [item] }
          dish selectedSize quantity item

/-- The method `removeItem(itemId)`. -/
def removeItem (env : Env) (cm : CartManager) (itemId : String) :
    CartManager × Except JsError Bool :=
  let itemIndex := findIndex (fun item => item.id == itemId) cm.items
  match itemIndex with
  | none => (cm, .ok false)
  | some idx =>
    match cm.items.get? idx with
    | none => (cm, .error (.typeError "Cannot read properties of undefined"))
    | some removedItem =>
      let cm := { cm with items := splice1 idx cm.items }
      let cm := saveCartToStorage env cm
      -- this.updateCartDisplay(); this.showToast(removedItem.name + " видалено з кошика", 'info')
      let cm := { cm with stats := { cm.stats with removedItems := cm.stats.removedItems + 1 } }
      let cm := trackEvent env cm (analyticsEvent "REMOVE_FROM_CART")
        [("dish_id", .str removedItem.dishId),
         ("dish_name", .str removedItem.name),
         ("price", .num removedItem.price),
         ("quantity", .num removedItem.quantity)]
      (cm, .ok true)

/-- The method `updateQuantity(itemId, newQuantity)`; `find` followed by
assignments to the found object is an update at the index of the first match. -/
def updateQuantity (env : Env) (cm : CartManager) (itemId : String) (newQuantity : Int) :
    CartManager × Except JsError Bool :=
  if newQuantity ≤ 0 then removeItem env cm itemId
  else if newQuantity > 10 then
    -- this.showToast("Максимум 10 одиниць одного товару", 'warning')
    (cm, .ok false)
  else
    match findIndex (fun item => item.id == itemId) cm.items with
    | none => (cm, .ok false)
    | some idx =>
      match cm.items.get? idx with
      | none => (cm, .ok false)
      | some item =>
        let oldQuantity := item.quantity
        let items := modifyAt
          (fun e => { e with quantity := newQuantity, updatedAt := env.now }) idx cm.items
        let cm := { cm with items := items }
        let cm := saveCartToStorage env cm
        -- this.updateCartDisplay()
        let cm := trackEvent env cm (analyticsEvent "CART_QUANTITY_CHANGED")
          [("dish_id", .str item.dishId),
           ("old_quantity", .num oldQuantity),
           ("new_quantity", .num newQuantity),
           ("price_difference", .num ((newQuantity - oldQuantity) * item.price))]
        (cm, .ok true)

/-- The method `clearCart()`; it returns `undefined` on every path. -/
def clearCart (env : Env) (cm : CartManager) : CartManager × Except JsError Unit :=
  if cm.items.length = 0 then (cm, .ok ())
  else
    -- confirm(MESSAGES.warnings.confirmClear): the dialog is put to the user
    let cm := { cm with confirmPrompts := cm.confirmPrompts + 1 }
    if !env.confirmClear then (cm, .ok ())
    else
      let itemCount := getItemCount cm.items
      let cm := { cm with items := [] }
      let cm := saveCartToStorage env cm
      -- this.updateCartDisplay(); this.showToast(MESSAGES.success.cartCleared, 'info')
      let cm := { cm with stats := { cm.stats with clearedCount := cm.stats.clearedCount + 1 } }
      let cm := trackEvent env cm (analyticsEvent "CART_CLEARED") [("items_count", .num itemCount)]
      (cm, .ok ())

/-! ## Storage -/

/-- The method `validateCartItem(item)`. -/
def validateCartItem (catalog : List Dish) (item : LineItem) : Bool :=
  if item.id = "" ∨ item.dishId = "" ∨ item.name = "" ∨ item.price = 0 ∨ item.quantity = 0 then
    false
  else
    match getDishById catalog item.dishId with
    | none => false
    | some _ =>
      if item.quantity ≤ 0 ∨ item.quantity > 10 then false
      else true

/-- The method `loadCartFromStorage()`. -/
def loadCartFromStorage (catalog : List Dish) (cm : CartManager) : CartManager :=
  match cm.storage with
  | some cartData =>
    match cartData.items with
    | some items => { cm with items := items.filter (fun item => validateCartItem catalog item) }
    | none => { cm with items := [] }
  | none => { cm with items := [] }

/-! ## Validity, checkout and the public snapshot -/

/-- The method `Utils.isRestaurantOpen` (`src/utils.js`). -/
def isRestaurantOpen (env : Env) : Bool :=
  let currentHour := env.hours
  let currentMinute := env.minutes
  let currentTime := currentHour * 60 + currentMinute
  let openTime := 9 * 60
  let closeTime := 23 * 60
  decide (currentTime ≥ openTime) && decide (currentTime < closeTime)

/-- The method `calculateEstimatedTime`. -/
def calculateEstimatedTime (catalog : List Dish) (items : List LineItem) : Int :=
  let maxTime := items.foldl (fun maxTime item =>
    match getDishById catalog item.dishId with
    | some dish => if dish.preparationTime ≠ 0 then max maxTime dish.preparationTime else maxTime
    | none => maxTime) 0
  let deliveryTime := CONFIG.delivery.estimatedTime.min
  maxTime + deliveryTime

/-- The method `isValidOrder`. -/
def isValidOrder (env : Env) (items : List LineItem) : Bool :=
  let subtotal := getSubtotal items
  let isOpenNow := isRestaurantOpen env
  let hasItems := decide (items.length > 0)
  let meetsMinimum := decide (subtotal ≥ CONFIG.cart.minOrderAmount)
  hasItems && meetsMinimum && isOpenNow

/-- The object returned by `getCartData`; its `totalWeight` (a `parseFloat`
sum) is left out. -/
structure CartSnapshot where
  items : List LineItem
  itemCount : Int
  subtotal : Int
  deliveryFee : Int
  total : Int
  estimatedTime : Int
  isValid : Bool
  stats : Stats
  deriving DecidableEq, Repr

/-- The method `getCartData`. -/
def getCartData (env : Env) (catalog : List Dish) (cm : CartManager) : CartSnapshot :=
  { items := cm.items,
    itemCount := getItemCount cm.items,
    subtotal := getSubtotal cm.items,
    deliveryFee := getDeliveryFee cm.items,
    total := getTotal cm.items,
    estimatedTime := calculateEstimatedTime catalog cm.items,
    isValid := isValidOrder env cm.items,
    stats := cm.stats }

/-- The call on which `proceedToCheckout` ends. -/
inductive CheckoutStep where
  | showValidationErrors
  | openCheckoutModal
  deriving DecidableEq, Repr

/-- The method `proceedToCheckout`, with the collaborator call it ends on. -/
def proceedToCheckout (env : Env) (cm : CartManager) : CartManager × CheckoutStep :=
  if !isValidOrder env cm.items then
    (cm, .showValidationErrors)
  else
    let cm := { cm with stats := { cm.stats with checkoutAttempts := cm.stats.checkoutAttempts + 1 } }
    let cm := trackEvent env cm (analyticsEvent "CHECKOUT_STARTED")
      [("items_count", .num (getItemCount cm.items)),
       ("total_amount", .num (getTotal cm.items)),
       ("delivery_fee", .num (getDeliveryFee cm.items))]
    (cm, .openCheckoutModal)

/-! ## Synchronisation, import, saved carts and lookups -/

/-- The method `syncWithStorage`; `diffMinutes < 30` is compared in milliseconds. -/
def syncWithStorage (env : Env) (catalog : List Dish) (cm : CartManager) : CartManager :=
  match cm.storage with
  | some cartData =>
    match cartData.savedAt with
    | some lastSaved =>
      let now := env.now
      let diff : Int := (now : Int) - (lastSaved : Int)
      if diff < 30 * (1000 * 60) then
        loadCartFromStorage catalog cm
        -- this.updateCartDisplay()
      else cm
    | none => cm
  | none => cm

/-- The method `hasUnsavedChanges`; without a `savedAt` the date is invalid and
the comparison `lastSaved < fiveMinutesAgo` is false. -/
def hasUnsavedChanges (env : Env) (cm : CartManager) : Bool :=
  match cm.storage with
  | none => decide (cm.items.length > 0)
  | some cartData =>
    let fiveMinutesAgo : Int := (env.now : Int) - 5 * 60 * 1000
    let isOlder := match cartData.savedAt with
      | some lastSaved => decide ((lastSaved : Int) < fiveMinutesAgo)
      | none => false
    isOlder && decide (cm.items.length > 0)

/-- The value `JSON.parse(cartJson)` handed to `importCart`: `items` is `none`
when the payload has no items array, and a record of the array is `none` when
it is `null`. -/
structure ImportData where
  items : Option (List (Option LineItem))
  deriving DecidableEq, Repr

/-- The call `cartData.items.filter(item => this.validateCartItem(item))` on
records that may be `null`: `validateCartItem(null)` reads `item.id` and
throws, which ends the whole `filter`. -/
def filterValidRecords (catalog : List Dish) :
    List (Option LineItem) → Except JsError (List LineItem)
  | [] => .ok []
  | none :: _ => .error (.typeError "Cannot read properties of null (reading id)")
  | some item :: rest =>
    if validateCartItem catalog item then
      match filterValidRecords catalog rest with
      | .ok validRest => .ok (item :: validRest)
      | .error e => .error e
    else filterValidRecords catalog rest

/-- The method `importCart(cartJson)`; the argument is the result of
`JSON.parse`, `none` when parsing (or reading `.items` of `null`) throws.
The `try`/`catch` turns every exception raised inside, that of the filter
included, into `return false`. -/
def importCart (env : Env) (catalog : List Dish) (cm : CartManager)
    (cartJson : Option ImportData) : CartManager × Except JsError Bool :=
  match cartJson with
  | none =>
    -- catch: this.showToast("Помилка імпорту кошика", 'error')
    (cm, .ok false)
  | some cartData =>
    match cartData.items with
    | some items =>
      match filterValidRecords catalog items with
      | .ok validItems =>
        if validItems.length > 0 then
          let cm := { cm with items := validItems }
          let cm := saveCartToStorage env cm
          -- this.updateCartDisplay(); this.showToast("Імпортовано ... товарів", 'success')
          (cm, .ok true)
        else (cm, .ok false)
      | .error _ =>
        -- catch: this.showToast("Помилка імпорту кошика", 'error')
        (cm, .ok false)
    | none => (cm, .ok false)

/-- One entry of the list stored under the key `saved_carts`. -/
structure SavedCart where
  id : String
  name : String
  items : List LineItem
  savedAt : Timestamp
  itemCount : Int
  total : Int
  deriving DecidableEq, Repr

/-- The method `saveCartForLater`, on the content of the key `saved_carts`
(`none` when absent): the new content of the key and the returned id
(`none` for `undefined`). -/
def saveCartForLater (env : Env) (cm : CartManager) (stored : Option (List SavedCart)) :
    Option (List SavedCart) × Option String :=
  if cm.items.length = 0 then
    -- this.showToast("Кошик порожній", 'warning')
    (stored, none)
  else
    let savedCarts := stored.getD []
    let cartData : SavedCart :=
      { id := env.generatedId,
        name := "Кошик " ++ env.localeDate,
        items := cm.items,
        savedAt := env.now,
        itemCount := getItemCount cm.items,
        total := getTotal cm.items }
    let savedCarts := savedCarts ++ [cartData]
    let savedCarts :=
      if savedCarts.length > 5 then savedCarts.drop (savedCarts.length - 5) else savedCarts
    let stored := if env.storageWritable then some savedCarts else stored
    -- this.showToast("Кошик збережено", 'success')
    (stored, some cartData.id)

/-- The method `findItem(dishId, size)`; `size` is a size name or `null`. -/
def findItem (env : Env) (items : List LineItem) (dishId : String) (size : Option String) :
    Option LineItem :=
  let itemId := match size with
    | some name => if name ≠ "" then dishId ++ "-" ++ env.toLowerCase name else dishId
    | none => dishId
  items.find? (fun item => item.id == itemId)

/-- The method `hasItem(dishId, size)`. -/
def hasItem (env : Env) (items : List LineItem) (dishId : String) (size : Option String) : Bool :=
  (findItem env items dishId size).isSome

/-- The method `getItemQuantity(dishId, size)`. -/
def getItemQuantity (env : Env) (items : List LineItem) (dishId : String)
    (size : Option String) : Int :=
  match findItem env items dishId size with
  | some item => item.quantity
  | none => 0

/-! ## Sequences of calls -/

/-- A call of one of the four mutating methods. -/
inductive CartOp where
  | addItem (dish : Option Dish) (selectedSize : Option Size) (quantity : Int) (options : Options)
  | removeItem (itemId : String)
  | updateQuantity (itemId : String) (newQuantity : Int)
  | clearCart

/-- The state after one call (whether it returned or threw). -/
def applyOp (env : Env) (cm : CartManager) : CartOp → CartManager
  | .addItem dish selectedSize quantity options =>
    (addItem env cm dish selectedSize quantity options).1
  | .removeItem itemId => (removeItem env cm itemId).1
  | .updateQuantity itemId newQuantity => (updateQuantity env cm itemId newQuantity).1
  | .clearCart => (clearCart env cm).1

/-- The state of a freshly constructed manager over an empty storage. -/
def emptyCart : CartManager :=
  { items := [],
    stats := { addedItems := 0, removedItems := 0, clearedCount := 0, checkoutAttempts := 0 },
    storage := none,
    tracked := [],
    confirmPrompts := 0 }

/-- The state reached from `cm` by a sequence of calls, each with its own host facts. -/
def runOps (cm : CartManager) (calls : List (Env × CartOp)) : CartManager :=
  calls.foldl (fun cm call => applyOp call.1 cm call.2) cm

/-! ## Sample data -/

/-- ASCII lower-casing, the behaviour of `toLowerCase` on ASCII names. -/
def asciiToLowerCase (s : String) : String :=
  String.mk (s.data.map Char.toLower)

/-- A host with a working storage, analytics and a rendered cart badge. -/
def sampleEnv : Env :=
  { toLowerCase := asciiToLowerCase,
    now := 1700000000000,
    cartBadge := some { tagName := "SPAN" },
    storageWritable := true,
    hasAnalytics := true,
    confirmClear := true,
    hours := 12,
    minutes := 30,
    generatedId := "cart_k3x9q1z7b_1700000000000",
    localeDate := "14.11.2023" }

/-- A dish without sizes. -/
def sampleDish (id : String) (price : Int) : Dish :=
  { id := id,
    name := id,
    description := "",
    price := price,
    weight := some "280г",
    image := "",
    category := "shawarma",
    allergens := none,
    preparationTime := 10 }

/-- A stored line of dish `dishId` with the given id, price and quantity. -/
def sampleLine (id dishId : String) (price quantity : Int) : LineItem :=
  { id := id,
    dishId := dishId,
    name := dishId,
    description := "",
    price := price,
    quantity := quantity,
    size := none,
    weight := none,
    image := "",
    category := "shawarma",
    allergens := [],
    addedAt := 0,
    updatedAt := 0 }

/-- Whether two optional sizes are both absent, or both present with names
equal after lower-casing (the size part of a dish+size combination). -/
def sameSizeName (env : Env) (s1 s2 : Option Size) : Bool :=
  match s1, s2 with
  | none, none => true
  | some a, some b => env.toLowerCase a.name == env.toLowerCase b.name
  | _, _ => false

/-- The items list held by the stored payload; empty when the key is absent or
the payload has no items list. -/
def storedItems (cm : CartManager) : List LineItem :=
  match cm.storage with
  | some cartData => cartData.items.getD []
  | none => []

/-- A stored payload with the given items list. -/
def samplePayload (items : List LineItem) : CartData :=
  { items := some items, savedAt := some 1700000000000, version := some "1.0" }

/-- A manager whose storage holds six stored lines with the same id, 10 units each. -/
def duplicatedPayloadCart : CartManager :=
  { emptyCart with
    storage := some (samplePayload (List.replicate 6 (sampleLine "fries" "fries" 60 10))) }

/-- Extra fields that carry the keys `dishId`, `quantity` and `price`. -/
def overridingOptions : Options :=
  { dishId := some "lavash", quantity := some 3, price := some 1 }

/-- The fields a stored line must carry with a truthy value to survive
`validateCartItem`: non-empty id, dishId and name, non-zero price and quantity. -/
def hasTruthyRequiredFields (item : LineItem) : Bool :=
  decide (item.id ≠ "") && decide (item.dishId ≠ "") && decide (item.name ≠ "") &&
    decide (item.price ≠ 0) && decide (item.quantity ≠ 0)

/-- The stored lines that a reload keeps, in the words of the specification:
required fields there, dish still in the catalog, `1 <= quantity <= 10`. -/
def keptOnReload (catalog : List Dish) (item : LineItem) : Bool :=
  hasTruthyRequiredFields item && (getDishById catalog item.dishId).isSome &&
    decide (1 ≤ item.quantity) && decide (item.quantity ≤ 10)

/-- Another store instance (another tab) that shares the storage of `cm`. -/
def otherTab (other cm : CartManager) : CartManager :=
  { other with storage := cm.storage }

/-- A manager hydrated from a payload of two valid stored lines with the same id. -/
def hydratedDuplicateCart : CartManager :=
  loadCartFromStorage [sampleDish "fries" 60]
    { emptyCart with
      storage := some (samplePayload [sampleLine "fries" "fries" 60 1, sampleLine "fries" "fries" 60 2]) }

/-- The host `env` with the outcome of storage writes set to `ok`. -/
def withStorageWritable (env : Env) (ok : Bool) : Env :=
  { env with storageWritable := ok }

/-- The preparation times of the catalog entries of the lines of the cart. -/
def preparationTimes (catalog : List Dish) (items : List LineItem) : List Int :=
  items.filterMap (fun item => (getDishById catalog item.dishId).map (·.preparationTime))

/-- The largest of a list of times, 0 for the empty list (and at least 0). -/
def maxTimeOf (times : List Int) : Int :=
  times.foldr max 0

/-- The dish of the end-to-end scenario: `{id: "shawarma-chicken", price: 125}`. -/
def scenarioDish : Dish :=
  { id := "shawarma-chicken",
    name := "",
    description := "",
    price := 125,
    weight := none,
    image := "",
    category := "",
    allergens := none,
    preparationTime := 0 }

/-- The three calls of the end-to-end scenario, `n` of them made. -/
def scenarioCalls (n : Nat) : List (Env × CartOp) :=
  List.replicate n (sampleEnv, .addItem (some scenarioDish) none 1 {})

/-- The projection of a line on the fields compared by the split-add property. -/
def idPriceQuantity (l : LineItem) : String × Int × Int :=
  (l.id, l.price, l.quantity)

/-- An import payload whose items array holds the given line objects. -/
def importOfLines (lines : List LineItem) : ImportData :=
  { items := some (lines.map some) }

/-- The host of `sampleEnv` with a user who refuses the confirmation. -/
def refusingEnv : Env :=
  { sampleEnv with confirmClear := false }

/-- A call of `addItem` is accepted when it is not rejected, that is when it does
not return `false`. -/
def accepted (result : CartManager × Except JsError Bool) : Prop :=
  result.2 ≠ .ok false

/-! ## Lemmas on the array primitives -/

theorem findIndex_eq_none_iff {α : Type} (p : α → Bool) (l : List α) :
    findIndex p l = none ↔ ∀ x ∈ l, p x = false := by
  induction l with
  | nil => simp [findIndex]
  | cons x xs ih =>
    by_cases hx : p x = true
    · simp [findIndex, hx]
    · simp [findIndex, hx, ih]

theorem findIndex_append_cons {α : Type} (p : α → Bool) (pre : List α) (x : α) (post : List α)
    (hx : p x = true) (hpre : ∀ y ∈ pre, p y = false) :
    findIndex p (pre ++ x :: post) = some pre.length := by
  induction pre with
  | nil => simp [findIndex, hx]
  | cons y ys ih =>
    have hy : p y = false := hpre y (by simp)
    have hys : ∀ z ∈ ys, p z = false := fun z hz => hpre z (by simp [hz])
    simp [findIndex, hy, ih hys]

theorem findIndex_eq_some {α : Type} (p : α → Bool) (l : List α) (i : Nat)
    (h : findIndex p l = some i) :
    ∃ pre x post, l = pre ++ x :: post ∧ pre.length = i ∧ p x = true ∧
      ∀ y ∈ pre, p y = false := by
  induction l generalizing i with
  | nil => simp [findIndex] at h
  | cons x xs ih =>
    by_cases hx : p x = true
    · simp [findIndex, hx] at h
      exact ⟨[], x, xs, by simp, by simp [h], hx, by simp⟩
    · simp [findIndex, hx] at h
      obtain ⟨j, hj, rfl⟩ := h
      obtain ⟨pre, y, post, hl, hlen, hy, hpre⟩ := ih j hj
      refine ⟨x :: pre, y, post, by simp [hl], by simp [hlen], hy, ?_⟩
      intro z hz
      rcases List.mem_cons.mp hz with rfl | hz
      · simpa using hx
      · exact hpre z hz

theorem exists_first_match {α : Type} (p : α → Bool) (l : List α)
    (h : ∃ x ∈ l, p x = true) :
    ∃ pre x post, l = pre ++ x :: post ∧ p x = true ∧ ∀ y ∈ pre, p y = false := by
  cases hf : findIndex p l with
  | none =>
    obtain ⟨x, hx, hpx⟩ := h
    have := (findIndex_eq_none_iff p l).mp hf x hx
    simp [hpx] at this
  | some i =>
    obtain ⟨pre, x, post, hl, _, hx, hpre⟩ := findIndex_eq_some p l i hf
    exact ⟨pre, x, post, hl, hx, hpre⟩

theorem get?_append_cons_length {α : Type} (pre : List α) (x : α) (post : List α) :
    (pre ++ x :: post).get? pre.length = some x := by
  induction pre with
  | nil => simp
  | cons y ys ih => simpa using ih

theorem modifyAt_append_cons {α : Type} (f : α → α) (pre : List α) (x : α) (post : List α) :
    modifyAt f pre.length (pre ++ x :: post) = pre ++ f x :: post := by
  induction pre with
  | nil => simp [modifyAt]
  | cons y ys ih => simp [modifyAt, ih]

theorem splice1_append_cons {α : Type} (pre : List α) (x : α) (post : List α) :
    splice1 pre.length (pre ++ x :: post) = pre ++ post := by
  induction pre with
  | nil => simp [splice1]
  | cons y ys ih => simp [splice1, ih]

theorem getItemCount_eq_sum (items : List LineItem) :
    getItemCount items = (items.map (·.quantity)).sum := by
  have h : ∀ (l : List LineItem) (a : Int),
      l.foldl (fun sum item => sum + item.quantity) a = a + (l.map (·.quantity)).sum := by
    intro l
    induction l with
    | nil => intro a; simp
    | cons x xs ih => intro a; simp [ih, add_assoc]
  simpa [getItemCount] using h items 0

/-! ## Lemmas on the operations -/

@[simp] theorem saveCartToStorage_items (env : Env) (cm : CartManager) :
    (saveCartToStorage env cm).items = cm.items := by
  unfold saveCartToStorage
  split <;> rfl

@[simp] theorem trackEvent_items (env : Env) (cm : CartManager) (n : Option String)
    (data : List (String × PropValue)) : (trackEvent env cm n data).items = cm.items := by
  unfold trackEvent
  split <;> rfl

theorem animateCartBadge_throws (env : Env) : ∃ e, animateCartBadge env = .error e := by
  unfold animateCartBadge
  cases env.cartBadge with
  | none => exact ⟨_, rfl⟩
  | some b => exact ⟨_, rfl⟩

theorem addItemAfterMutation_eq (env : Env) (cm : CartManager) (dish : Dish)
    (selectedSize : Option Size) (quantity : Int) (item : LineItem) :
    ∃ e, addItemAfterMutation env cm dish selectedSize quantity item =
      (saveCartToStorage env cm, .error e) := by
  obtain ⟨e, he⟩ := animateCartBadge_throws env
  exact ⟨e, by simp [addItemAfterMutation, showAddedFeedback, he]⟩

theorem addItemAfterMutation_items (env : Env) (cm : CartManager) (dish : Dish)
    (selectedSize : Option Size) (quantity : Int) (item : LineItem) :
    (addItemAfterMutation env cm dish selectedSize quantity item).1.items = cm.items := by
  obtain ⟨e, he⟩ := addItemAfterMutation_eq env cm dish selectedSize quantity item
  simp [he]

theorem addItem_firstMatch (env : Env) (cm : CartManager) (d : Dish) (s : Option Size)
    (q : Int) (o : Options) (pre : List LineItem) (L : LineItem) (post : List LineItem)
    (hitems : cm.items = pre ++ L :: post)
    (hL : L.id = (createCartItem env d s q o).id)
    (hpre : ∀ x ∈ pre, x.id ≠ (createCartItem env d s q o).id) :
    findIndex (fun i => i.id == (createCartItem env d s q o).id) cm.items = some pre.length ∧
      cm.items.get? pre.length = some L := by
  rw [hitems]
  refine ⟨findIndex_append_cons _ pre L post (by simp [hL]) ?_, get?_append_cons_length pre L post⟩
  intro y hy
  simpa using hpre y hy

theorem addItem_existing_reject (env : Env) (cm : CartManager) (d : Dish) (s : Option Size)
    (q : Int) (o : Options) (pre : List LineItem) (L : LineItem) (post : List LineItem)
    (hitems : cm.items = pre ++ L :: post)
    (hL : L.id = (createCartItem env d s q o).id)
    (hpre : ∀ x ∈ pre, x.id ≠ (createCartItem env d s q o).id)
    (hten : L.quantity + q > 10) :
    addItem env cm (some d) s q o = (cm, .ok false) := by
  obtain ⟨hf, hg⟩ := addItem_firstMatch env cm d s q o pre L post hitems hL hpre
  unfold addItem
  simp only [hf, hg]
  split_ifs <;> rfl

theorem addItem_existing_accept (env : Env) (cm : CartManager) (d : Dish) (s : Option Size)
    (q : Int) (o : Options) (pre : List LineItem) (L : LineItem) (post : List LineItem)
    (hid : d.id ≠ "") (hq : 0 < q)
    (hmax : getItemCount cm.items + q ≤ CONFIG.cart.maxItems)
    (hitems : cm.items = pre ++ L :: post)
    (hL : L.id = (createCartItem env d s q o).id)
    (hpre : ∀ x ∈ pre, x.id ≠ (createCartItem env d s q o).id)
    (hten : L.quantity + q ≤ 10) :
    ∃ e, addItem env cm (some d) s q o =
      (saveCartToStorage env { cm with items :=
        pre ++ { L with quantity := L.quantity + q, updatedAt := env.now } :: post },
       .error e) := by
  obtain ⟨hf, hg⟩ := addItem_firstMatch env cm d s q o pre L post hitems hL hpre
  obtain ⟨e, he⟩ := addItemAfterMutation_eq env
    { cm with items := pre ++ { L with quantity := L.quantity + q, updatedAt := env.now } :: post }
    d s q (createCartItem env d s q o)
  refine ⟨e, ?_⟩
  unfold addItem
  simp only [hf, hg]
  rw [if_neg hid, if_neg (by omega), if_neg (by omega), if_neg (by omega)]
  rw [← he, hitems, modifyAt_append_cons]

theorem addItem_new_accept (env : Env) (cm : CartManager) (d : Dish) (s : Option Size)
    (q : Int) (o : Options)
    (hid : d.id ≠ "") (hq : 0 < q)
    (hmax : getItemCount cm.items + q ≤ CONFIG.cart.maxItems)
    (hnew : ∀ x ∈ cm.items, x.id ≠ (createCartItem env d s q o).id) :
    ∃ e, addItem env cm (some d) s q o =
      (saveCartToStorage env { cm with items := cm.items ++ [createCartItem env d s q o] },
       .error e) := by
  have hf : findIndex (fun i => i.id == (createCartItem env d s q o).id) cm.items = none := by
    rw [findIndex_eq_none_iff]
    intro x hx
    simpa using hnew x hx
  obtain ⟨e, he⟩ := addItemAfterMutation_eq env
    { cm with items := cm.items ++ [createCartItem env d s q o] } d s q (createCartItem env d s q o)
  refine ⟨e, ?_⟩
  unfold addItem
  simp only [hf]
  rw [if_neg hid, if_neg (by omega), if_neg (by omega), ← he]

theorem removeItem_found (env : Env) (cm : CartManager) (itemId : String)
    (pre : List LineItem) (L : LineItem) (post : List LineItem)
    (hitems : cm.items = pre ++ L :: post) (hL : L.id = itemId)
    (hpre : ∀ x ∈ pre, x.id ≠ itemId) :
    (removeItem env cm itemId).1.items = pre ++ post ∧
      (removeItem env cm itemId).2 = .ok true := by
  have hf : findIndex (fun item => item.id == itemId) cm.items = some pre.length := by
    rw [hitems]
    refine findIndex_append_cons _ pre L post (by simp [hL]) ?_
    intro y hy
    simpa using hpre y hy
  have hg : cm.items.get? pre.length = some L := by
    rw [hitems]; exact get?_append_cons_length pre L post
  unfold removeItem
  simp only [hf, hg, saveCartToStorage_items, trackEvent_items]
  rw [hitems, splice1_append_cons]
  exact ⟨rfl, trivial⟩

theorem removeItem_missing (env : Env) (cm : CartManager) (itemId : String)
    (hmiss : ∀ x ∈ cm.items, x.id ≠ itemId) :
    removeItem env cm itemId = (cm, .ok false) := by
  have hf : findIndex (fun item => item.id == itemId) cm.items = none := by
    rw [findIndex_eq_none_iff]
    intro x hx
    simpa using hmiss x hx
  unfold removeItem
  simp only [hf]

theorem updateQuantity_found (env : Env) (cm : CartManager) (itemId : String) (n : Int)
    (pre : List LineItem) (L : LineItem) (post : List LineItem)
    (hpos : 0 < n) (hten : n ≤ 10)
    (hitems : cm.items = pre ++ L :: post) (hL : L.id = itemId)
    (hpre : ∀ x ∈ pre, x.id ≠ itemId) :
    (updateQuantity env cm itemId n).1.items =
      pre ++ { L with quantity := n, updatedAt := env.now } :: post ∧
      (updateQuantity env cm itemId n).2 = .ok true := by
  have hf : findIndex (fun item => item.id == itemId) cm.items = some pre.length := by
    rw [hitems]
    refine findIndex_append_cons _ pre L post (by simp [hL]) ?_
    intro y hy
    simpa using hpre y hy
  have hg : cm.items.get? pre.length = some L := by
    rw [hitems]; exact get?_append_cons_length pre L post
  unfold updateQuantity
  rw [if_neg (by omega), if_neg (by omega)]
  simp only [hf, hg, saveCartToStorage_items, trackEvent_items]
  rw [hitems, modifyAt_append_cons]
  exact ⟨rfl, trivial⟩

theorem updateQuantity_missing (env : Env) (cm : CartManager) (itemId : String) (n : Int)
    (hpos : 0 < n) (hmiss : ∀ x ∈ cm.items, x.id ≠ itemId) :
    updateQuantity env cm itemId n = (cm, .ok false) := by
  have hf : findIndex (fun item => item.id == itemId) cm.items = none := by
    rw [findIndex_eq_none_iff]
    intro x hx
    simpa using hmiss x hx
  unfold updateQuantity
  rw [if_neg (by omega)]
  split_ifs
  · rfl
  · simp only [hf]

theorem clearCart_items (env : Env) (cm : CartManager) :
    (clearCart env cm).1.items = cm.items ∨ (clearCart env cm).1.items = [] := by
  unfold clearCart
  split_ifs
  · exact Or.inl rfl
  · exact Or.inl rfl
  · right
    simp

/-- Every line either precedes the first line with a given id or lies in a list
that has such a first line. -/
theorem first_line_with_id (items : List LineItem) (itemId : String) :
    (∀ x ∈ items, x.id ≠ itemId) ∨
      ∃ pre L post, items = pre ++ L :: post ∧ L.id = itemId ∧ ∀ x ∈ pre, x.id ≠ itemId := by
  by_cases h : ∃ x ∈ items, x.id = itemId
  · right
    obtain ⟨pre, L, post, hl, hL, hpre⟩ :=
      exists_first_match (fun i => i.id == itemId) items (by simpa using h)
    exact ⟨pre, L, post, hl, by simpa using hL, fun x hx => by simpa using hpre x hx⟩
  · left
    intro x hx hid
    exact h ⟨x, hx, hid⟩

theorem addItem_guard_reject (env : Env) (cm : CartManager) (dish : Option Dish)
    (s : Option Size) (q : Int) (o : Options)
    (h : dish = none ∨ (∃ d, dish = some d ∧ d.id = "") ∨ q ≤ 0 ∨
      getItemCount cm.items + q > CONFIG.cart.maxItems) :
    addItem env cm dish s q o = (cm, .ok false) := by
  cases dish with
  | none => rfl
  | some d =>
    unfold addItem
    by_cases hid : d.id = ""
    · simp only [hid, if_true]
    · by_cases hq : q ≤ 0
      · simp only [hid, hq, if_true, if_false]
      · by_cases hmax : getItemCount cm.items + q > CONFIG.cart.maxItems
        · simp only [hid, hq, hmax, if_true, if_false]
        · rcases h with h | ⟨d2, h, h2⟩ | h | h
          · cases h
          · cases h; exact absurd h2 hid
          · exact absurd h hq
          · exact absurd h hmax

/-- The shape of the item list after one call: unchanged, emptied, one line
appended whose id was not present, one line changed in quantity and
`updatedAt` only, or one line deleted. -/
theorem applyOp_items_cases (env : Env) (cm : CartManager) (op : CartOp) :
    (applyOp env cm op).items = cm.items ∨ (applyOp env cm op).items = [] ∨
    (∃ item, (∀ x ∈ cm.items, x.id ≠ item.id) ∧
      (applyOp env cm op).items = cm.items ++ [item]) ∨
    (∃ pre L post n t, cm.items = pre ++ L :: post ∧
      (applyOp env cm op).items = pre ++ { L with quantity := n, updatedAt := t } :: post) ∨
    (∃ pre L post, cm.items = pre ++ L :: post ∧ (applyOp env cm op).items = pre ++ post) := by
  have hrem : ∀ itemId : String,
      (removeItem env cm itemId).1.items = cm.items ∨
      (∃ pre L post, cm.items = pre ++ L :: post ∧
        (removeItem env cm itemId).1.items = pre ++ post) := by
    intro itemId
    rcases first_line_with_id cm.items itemId with hmiss | ⟨pre, L, post, hl, hL, hpre⟩
    · left; rw [removeItem_missing env cm itemId hmiss]
    · right
      exact ⟨pre, L, post, hl, (removeItem_found env cm itemId pre L post hl hL hpre).1⟩
  cases op with
  | addItem dish s q o =>
    simp only [applyOp]
    by_cases hg : dish = none ∨ (∃ d, dish = some d ∧ d.id = "") ∨ q ≤ 0 ∨
        getItemCount cm.items + q > CONFIG.cart.maxItems
    · left; rw [addItem_guard_reject env cm dish s q o hg]
    · simp only [not_or, not_exists, not_and, not_le, not_lt] at hg
      obtain ⟨hsome, hid, hq, hmax⟩ := hg
      cases dish with
      | none => exact absurd rfl hsome
      | some d =>
        have hid2 : d.id ≠ "" := hid d rfl
        rcases first_line_with_id cm.items (createCartItem env d s q o).id with
          hnew | ⟨pre, L, post, hl, hL, hpre⟩
        · right; right; left
          obtain ⟨e, he⟩ := addItem_new_accept env cm d s q o hid2 hq hmax hnew
          exact ⟨createCartItem env d s q o, hnew, by rw [he]; simp⟩
        · by_cases hten : L.quantity + q > 10
          · left; rw [addItem_existing_reject env cm d s q o pre L post hl hL hpre hten]
          · right; right; right; left
            obtain ⟨e, he⟩ := addItem_existing_accept env cm d s q o pre L post hid2 hq hmax
              hl hL hpre (by omega)
            exact ⟨pre, L, post, L.quantity + q, env.now, hl, by rw [he]; simp⟩
  | removeItem itemId =>
    simp only [applyOp]
    rcases hrem itemId with h | h
    · exact Or.inl h
    · exact Or.inr (Or.inr (Or.inr (Or.inr h)))
  | updateQuantity itemId n =>
    simp only [applyOp]
    by_cases hn : n ≤ 0
    · have : updateQuantity env cm itemId n = removeItem env cm itemId := by
        unfold updateQuantity; rw [if_pos hn]
      rw [this]
      rcases hrem itemId with h | h
      · exact Or.inl h
      · exact Or.inr (Or.inr (Or.inr (Or.inr h)))
    · by_cases hten : n > 10
      · left; unfold updateQuantity; rw [if_neg hn, if_pos hten]
      · rcases first_line_with_id cm.items itemId with hmiss | ⟨pre, L, post, hl, hL, hpre⟩
        · left; rw [updateQuantity_missing env cm itemId n (by omega) hmiss]
        · right; right; right; left
          exact ⟨pre, L, post, _, _, hl,
            (updateQuantity_found env cm itemId n pre L post (by omega) (by omega) hl hL hpre).1⟩
  | clearCart =>
    simp only [applyOp]
    rcases clearCart_items env cm with h | h
    · exact Or.inl h
    · exact Or.inr (Or.inl h)

/-- A property kept by every call holds after every sequence of calls. -/
theorem runOps_induction (P : CartManager → Prop)
    (hstep : ∀ env cm op, P cm → P (applyOp env cm op)) :
    ∀ (calls : List (Env × CartOp)) (cm : CartManager), P cm → P (runOps cm calls) := by
  intro calls
  induction calls with
  | nil => intro cm h; exact h
  | cons c cs ih =>
    intro cm h
    exact ih (applyOp c.1 cm c.2) (hstep c.1 cm c.2 h)

theorem applyOp_nodup_ids (env : Env) (cm : CartManager) (op : CartOp)
    (h : (cm.items.map (·.id)).Nodup) : ((applyOp env cm op).items.map (·.id)).Nodup := by
  rcases applyOp_items_cases env cm op with h1 | h1 | ⟨item, hnew, h1⟩ |
    ⟨pre, L, post, n, t, hl, h1⟩ | ⟨pre, L, post, hl, h1⟩
  · rw [h1]; exact h
  · rw [h1]; simp
  · rw [h1, List.map_append]
    refine List.Nodup.append h (by simp) ?_
    intro a ha hb
    simp only [List.map_cons, List.map_nil, List.mem_singleton] at hb
    obtain ⟨x, hx, rfl⟩ := List.mem_map.mp ha
    exact hnew x hx hb
  · rw [h1]
    rw [hl] at h
    simpa using h
  · rw [h1]
    rw [hl] at h
    refine List.Nodup.sublist ?_ h
    exact List.Sublist.map _ (List.Sublist.append_left (List.sublist_cons_self L post) pre)

/-! ## The claims -/

/-- C1 (defect): a call `addItem(dish, null, 11)` on the empty cart creates a
line of quantity 11; the bound of 10 per line is only checked when the line
already exists, so the invariant `1 <= quantity <= 10` is broken. -/
theorem C1_new_line_quantity_above_ten :
    (runOps emptyCart
      [(sampleEnv, .addItem (some (sampleDish "shawarma-chicken" 125)) none 11 {})]).items.map
      (·.quantity) = [11] := by
  decide

/-- C2 (defect): six lines filled up to 50 units by `addItem`, then
`updateQuantity("f", 10)`: the call is accepted and `getItemCount` becomes 59,
above `CONFIG.cart.maxItems`, although no line exceeds 10. -/
theorem C2_updateQuantity_exceeds_maxItems :
    getItemCount (runOps emptyCart
      [(sampleEnv, .addItem (some (sampleDish "a" 100)) none 10 {}),
       (sampleEnv, .addItem (some (sampleDish "b" 100)) none 10 {}),
       (sampleEnv, .addItem (some (sampleDish "c" 100)) none 10 {}),
       (sampleEnv, .addItem (some (sampleDish "d" 100)) none 10 {}),
       (sampleEnv, .addItem (some (sampleDish "e" 100)) none 9 {}),
       (sampleEnv, .addItem (some (sampleDish "f" 100)) none 1 {}),
       (sampleEnv, .updateQuantity "f" 10)]).items = 59 ∧
    CONFIG.cart.maxItems = 50 := by
  decide

/-- C3: in every cart state reached from the empty cart by a sequence of
`addItem` (any dish, size, quantity and options), `removeItem`,
`updateQuantity` and `clearCart` calls, no two lines have the same id. -/
theorem C3_reachable_ids_unique (calls : List (Env × CartOp)) :
    ((runOps emptyCart calls).items.map (·.id)).Nodup :=
  runOps_induction (fun cm => (cm.items.map (·.id)).Nodup)
    (fun env cm op h => applyOp_nodup_ids env cm op h) calls emptyCart (by simp [emptyCart])

/-- C5: `addItem` returns `false` and leaves the manager (item list, storage,
telemetry) exactly as it was when the dish is missing or has an empty id, or
`quantity <= 0`, or `itemCount + quantity > maxItems`, or the line with the
computed id exists and its quantity plus `quantity` exceeds 10. The existing
line is the first one with that id, which `findIndex` selects; in a cart with
unique ids it is the only one. -/
theorem C5_addItem_rejection_changes_nothing (env : Env) (cm : CartManager)
    (dish : Option Dish) (selectedSize : Option Size) (quantity : Int) (options : Options)
    (h : dish = none ∨ (∃ d, dish = some d ∧ d.id = "") ∨ quantity ≤ 0 ∨
      getItemCount cm.items + quantity > CONFIG.cart.maxItems ∨
      (∃ d pre L post, dish = some d ∧ cm.items = pre ++ L :: post ∧
        L.id = (createCartItem env d selectedSize quantity options).id ∧
        (∀ x ∈ pre, x.id ≠ (createCartItem env d selectedSize quantity options).id) ∧
        L.quantity + quantity > 10)) :
    addItem env cm dish selectedSize quantity options = (cm, .ok false) := by
  rcases h with h | h | h | h | ⟨d, pre, L, post, rfl, hl, hL, hpre, hten⟩
  · exact addItem_guard_reject env cm dish selectedSize quantity options (Or.inl h)
  · exact addItem_guard_reject env cm dish selectedSize quantity options (Or.inr (Or.inl h))
  · exact addItem_guard_reject env cm dish selectedSize quantity options
      (Or.inr (Or.inr (Or.inl h)))
  · exact addItem_guard_reject env cm dish selectedSize quantity options
      (Or.inr (Or.inr (Or.inr h)))
  · exact addItem_existing_reject env cm d selectedSize quantity options pre L post hl hL hpre hten

/-- Witness of C5: a line of quantity 8 for the dish, and a request for 3 more. -/
theorem C5_addItem_rejection_changes_nothing_witness :
    addItem sampleEnv
      { emptyCart with items := [sampleLine "shawarma-chicken" "shawarma-chicken" 125 8] }
      (some (sampleDish "shawarma-chicken" 125)) none 3 {} =
      ({ emptyCart with items := [sampleLine "shawarma-chicken" "shawarma-chicken" 125 8] },
        .ok false) :=
  C5_addItem_rejection_changes_nothing sampleEnv
    { emptyCart with items := [sampleLine "shawarma-chicken" "shawarma-chicken" 125 8] }
    (some (sampleDish "shawarma-chicken" 125)) none 3 {}
    (Or.inr (Or.inr (Or.inr (Or.inr
      ⟨sampleDish "shawarma-chicken" 125, [],
        sampleLine "shawarma-chicken" "shawarma-chicken" 125 8, [],
        rfl, rfl, by decide, by simp, by decide⟩))))

/-- C6 (defect): whenever no rejection condition holds, `addItem` does not
return `true`: it changes the cart, saves it, and then leaves with the
`TypeError` raised by `animateCartBadge`. -/
theorem C6_accepted_addItem_throws (env : Env) (cm : CartManager) (d : Dish)
    (selectedSize : Option Size) (quantity : Int) (options : Options)
    (hid : d.id ≠ "") (hq : 0 < quantity)
    (hmax : getItemCount cm.items + quantity ≤ CONFIG.cart.maxItems)
    (hline : ∀ L ∈ cm.items, L.id = (createCartItem env d selectedSize quantity options).id →
      L.quantity + quantity ≤ 10) :
    ∃ e, (addItem env cm (some d) selectedSize quantity options).2 = .error e := by
  rcases first_line_with_id cm.items (createCartItem env d selectedSize quantity options).id with
    hnew | ⟨pre, L, post, hl, hL, hpre⟩
  · obtain ⟨e, he⟩ := addItem_new_accept env cm d selectedSize quantity options hid hq hmax hnew
    exact ⟨e, by rw [he]⟩
  · have hten : L.quantity + quantity ≤ 10 := hline L (by simp [hl]) hL
    obtain ⟨e, he⟩ := addItem_existing_accept env cm d selectedSize quantity options pre L post
      hid hq hmax hl hL hpre hten
    exact ⟨e, by rw [he]⟩

/-- Witness of C6: the first scenario of the specification. -/
theorem C6_accepted_addItem_throws_witness :
    ∃ e, (addItem sampleEnv emptyCart (some (sampleDish "shawarma-chicken" 125)) none 1 {}).2 =
      .error e :=
  C6_accepted_addItem_throws sampleEnv emptyCart (sampleDish "shawarma-chicken" 125) none 1 {}
    (by decide) (by decide) (by decide) (by simp [emptyCart])

/-- C7: when the cart holds a line `L` with the id computed for the call (the
first such line, the only one in a cart with unique ids) and the call is
accepted, the item list afterwards is the same list with `L` replaced by `L`
with quantity `L.quantity + q` and a fresh `updatedAt`: the price and all other
fields of `L`, all other lines and the order are unchanged. -/
theorem C7_addItem_existing_line (env : Env) (cm : CartManager) (d : Dish)
    (selectedSize : Option Size) (q : Int) (options : Options)
    (pre : List LineItem) (L : LineItem) (post : List LineItem)
    (hid : d.id ≠ "") (hq : 0 < q)
    (hmax : getItemCount cm.items + q ≤ CONFIG.cart.maxItems)
    (hitems : cm.items = pre ++ L :: post)
    (hL : L.id = (createCartItem env d selectedSize q options).id)
    (hpre : ∀ x ∈ pre, x.id ≠ (createCartItem env d selectedSize q options).id)
    (hten : L.quantity + q ≤ 10) :
    (addItem env cm (some d) selectedSize q options).1.items =
      pre ++ { L with quantity := L.quantity + q, updatedAt := env.now } :: post := by
  obtain ⟨e, he⟩ := addItem_existing_accept env cm d selectedSize q options pre L post
    hid hq hmax hitems hL hpre hten
  rw [he]
  simp

/-- Witness of C7: the line was added at price 100, the dish now costs 125. -/
theorem C7_addItem_existing_line_witness :
    (addItem sampleEnv
      { emptyCart with items :=
          [sampleLine "fries" "fries" 60 1, sampleLine "shawarma-chicken" "shawarma-chicken" 100 2,
           sampleLine "cola" "cola" 35 1] }
      (some (sampleDish "shawarma-chicken" 125)) none 3 {}).1.items =
      [sampleLine "fries" "fries" 60 1] ++
        { sampleLine "shawarma-chicken" "shawarma-chicken" 100 2 with
          quantity := 2 + 3, updatedAt := sampleEnv.now } :: [sampleLine "cola" "cola" 35 1] :=
  C7_addItem_existing_line sampleEnv
    { emptyCart with items :=
        [sampleLine "fries" "fries" 60 1, sampleLine "shawarma-chicken" "shawarma-chicken" 100 2,
         sampleLine "cola" "cola" 35 1] }
    (sampleDish "shawarma-chicken" 125) none 3 {}
    [sampleLine "fries" "fries" 60 1] (sampleLine "shawarma-chicken" "shawarma-chicken" 100 2)
    [sampleLine "cola" "cola" 35 1]
    (by decide) (by decide) (by decide) rfl (by decide) (by decide) (by decide)

/-- C10: if a line with the id exists, `removeItem` returns `true` and the
list afterwards is the previous list without that line (the first with the
id), the other lines unchanged and in their order; if no line has the id,
`removeItem` returns `false` and the manager is unchanged. -/
theorem C10_removeItem (env : Env) (cm : CartManager) (lineId : String) :
    ((∃ x ∈ cm.items, x.id = lineId) →
      (removeItem env cm lineId).2 = .ok true ∧
      ∃ pre L post, cm.items = pre ++ L :: post ∧ L.id = lineId ∧
        (∀ x ∈ pre, x.id ≠ lineId) ∧ (removeItem env cm lineId).1.items = pre ++ post) ∧
    ((∀ x ∈ cm.items, x.id ≠ lineId) → removeItem env cm lineId = (cm, .ok false)) := by
  constructor
  · intro hex
    rcases first_line_with_id cm.items lineId with hmiss | ⟨pre, L, post, hl, hL, hpre⟩
    · obtain ⟨x, hx, hxid⟩ := hex
      exact absurd hxid (hmiss x hx)
    · obtain ⟨h1, h2⟩ := removeItem_found env cm lineId pre L post hl hL hpre
      exact ⟨h2, pre, L, post, hl, hL, hpre, h1⟩
  · exact removeItem_missing env cm lineId

/-- Witness of C10: removing the middle line of three, and a missing id. -/
theorem C10_removeItem_witness :
    ((removeItem sampleEnv
        { emptyCart with items :=
            [sampleLine "fries" "fries" 60 1, sampleLine "cola" "cola" 35 2,
             sampleLine "tan" "tan" 40 1] } "cola").2 = .ok true ∧
      ∃ pre L post,
        [sampleLine "fries" "fries" 60 1, sampleLine "cola" "cola" 35 2,
          sampleLine "tan" "tan" 40 1] = pre ++ L :: post ∧ L.id = "cola" ∧
        (∀ x ∈ pre, x.id ≠ "cola") ∧
        (removeItem sampleEnv
          { emptyCart with items :=
              [sampleLine "fries" "fries" 60 1, sampleLine "cola" "cola" 35 2,
               sampleLine "tan" "tan" 40 1] } "cola").1.items = pre ++ post) ∧
    removeItem sampleEnv { emptyCart with items := [sampleLine "fries" "fries" 60 1] } "cola" =
      ({ emptyCart with items := [sampleLine "fries" "fries" 60 1] }, .ok false) :=
  ⟨(C10_removeItem sampleEnv
      { emptyCart with items :=
          [sampleLine "fries" "fries" 60 1, sampleLine "cola" "cola" 35 2,
           sampleLine "tan" "tan" 40 1] } "cola").1
      ⟨sampleLine "cola" "cola" 35 2, by decide, rfl⟩,
    (C10_removeItem sampleEnv { emptyCart with items := [sampleLine "fries" "fries" 60 1] }
      "cola").2 (by decide)⟩

theorem loadCartFromStorage_items (catalog : List Dish) (cm : CartManager) :
    (loadCartFromStorage catalog cm).items =
      (storedItems cm).filter (fun item => validateCartItem catalog item) := by
  unfold loadCartFromStorage storedItems
  cases cm.storage with
  | none => rfl
  | some cartData =>
    cases hitems : cartData.items with
    | none => simp [hitems]
    | some items => simp [hitems]

theorem sum_filter_le_of_nonneg (p : LineItem → Bool) (items : List LineItem)
    (h : ∀ x ∈ items, 0 ≤ x.quantity) :
    ((items.filter p).map (·.quantity)).sum ≤ (items.map (·.quantity)).sum := by
  induction items with
  | nil => simp
  | cons x xs ih =>
    have hx : 0 ≤ x.quantity := h x (by simp)
    have hxs := ih (fun y hy => h y (by simp [hy]))
    by_cases hp : p x = true
    · simp only [List.filter_cons_of_pos hp, List.map_cons, List.sum_cons]
      omega
    · simp only [List.filter_cons_of_neg hp, List.map_cons, List.sum_cons]
      omega

/-- C4 (counterexample): a payload of six valid stored lines with the same id
and 10 units each is hydrated unchanged: the ids repeat and the total is 60. -/
theorem C4_hydration_counterexample :
    ¬ ((loadCartFromStorage [sampleDish "fries" 60] duplicatedPayloadCart).items.map
        (·.id)).Nodup ∧
    getItemCount (loadCartFromStorage [sampleDish "fries" 60] duplicatedPayloadCart).items = 60 ∧
    CONFIG.cart.maxItems = 50 := by
  have hload : (loadCartFromStorage [sampleDish "fries" 60] duplicatedPayloadCart).items =
      List.replicate 6 (sampleLine "fries" "fries" 60 10) := by decide
  rw [hload]
  refine ⟨?_, by decide, by decide⟩
  simp [List.replicate, sampleLine]

/-- C4 (amended): for every catalog and every payload whose stored items have
pairwise distinct ids and non-negative quantities of total at most `maxItems`,
the cart produced by `loadCartFromStorage` has pairwise distinct ids and a
total quantity of at most `maxItems`. -/
theorem C4_hydration_preserves_invariants (catalog : List Dish) (cm : CartManager)
    (hids : ((storedItems cm).map (·.id)).Nodup)
    (hnonneg : ∀ x ∈ storedItems cm, 0 ≤ x.quantity)
    (htotal : getItemCount (storedItems cm) ≤ CONFIG.cart.maxItems) :
    ((loadCartFromStorage catalog cm).items.map (·.id)).Nodup ∧
      getItemCount (loadCartFromStorage catalog cm).items ≤ CONFIG.cart.maxItems := by
  rw [loadCartFromStorage_items]
  constructor
  · exact List.Nodup.sublist (List.Sublist.map _ (List.filter_sublist _)) hids
  · rw [getItemCount_eq_sum] at htotal ⊢
    exact le_trans (sum_filter_le_of_nonneg _ _ hnonneg) htotal

/-- Witness of C4: two distinct stored lines, one of them no longer in the catalog. -/
theorem C4_hydration_preserves_invariants_witness :
    ((loadCartFromStorage [sampleDish "fries" 60]
        { emptyCart with
          storage := some
            (samplePayload [sampleLine "fries" "fries" 60 2, sampleLine "cola" "cola" 35 1]) }).items.map (·.id)).Nodup ∧
      getItemCount (loadCartFromStorage [sampleDish "fries" 60]
        { emptyCart with
          storage := some
            (samplePayload [sampleLine "fries" "fries" 60 2, sampleLine "cola" "cola" 35 1]) }).items ≤ CONFIG.cart.maxItems :=
  C4_hydration_preserves_invariants [sampleDish "fries" 60]
    { emptyCart with
      storage := some
        (samplePayload [sampleLine "fries" "fries" 60 2, sampleLine "cola" "cola" 35 1]) }
    (by decide) (by decide) (by decide)

/-- C8 (counterexample): with extra fields `dishId`, `quantity` and `price`,
the appended line carries those values, not `dish.id`, the requested quantity
and `dish.price`. -/
theorem C8_extraFields_counterexample :
    (addItem sampleEnv emptyCart (some (sampleDish "shawarma-chicken" 125)) none 1
      overridingOptions).1.items.map (fun l => (l.dishId, l.quantity, l.price)) =
      [("lavash", 3, 1)] ∧
    ((sampleDish "shawarma-chicken" 125).id, (1 : Int), (sampleDish "shawarma-chicken" 125).price)
      ≠ ("lavash", 3, 1) := by
  decide

/-- C8 (amended): when no line has the id of the item built for the call and
the call is not rejected, the item list afterwards is the previous list
followed by exactly one new line; its dishId, quantity and unit price are the
values of the keys `dishId`, `quantity`, `price` of the extra fields when
present, and otherwise `dish.id`, the requested quantity, and
`selectedSize.price` if a size was given, else `dish.price`. -/
theorem C8_addItem_appends_line (env : Env) (cm : CartManager) (d : Dish)
    (selectedSize : Option Size) (quantity : Int) (options : Options)
    (hid : d.id ≠ "") (hq : 0 < quantity)
    (hmax : getItemCount cm.items + quantity ≤ CONFIG.cart.maxItems)
    (hnew : ∀ x ∈ cm.items, x.id ≠ (createCartItem env d selectedSize quantity options).id) :
    ∃ item, (addItem env cm (some d) selectedSize quantity options).1.items = cm.items ++ [item] ∧
      item.dishId = options.dishId.getD d.id ∧
      item.quantity = options.quantity.getD quantity ∧
      item.price = options.price.getD (match selectedSize with
        | some s => s.price
        | none => d.price) := by
  obtain ⟨e, he⟩ := addItem_new_accept env cm d selectedSize quantity options hid hq hmax hnew
  refine ⟨createCartItem env d selectedSize quantity options, by rw [he]; simp, rfl, rfl, ?_⟩
  cases selectedSize <;> rfl

/-- Witness of C8: a sized dish added to a cart that holds another line. -/
theorem C8_addItem_appends_line_witness :
    ∃ item, (addItem sampleEnv { emptyCart with items := [sampleLine "fries" "fries" 60 1] }
        (some (sampleDish "shawarma-chicken" 125))
        (some { name := "Mini", price := 115, weight := none }) 2 {}).1.items =
        [sampleLine "fries" "fries" 60 1] ++ [item] ∧
      item.dishId = "shawarma-chicken" ∧ item.quantity = 2 ∧ item.price = 115 :=
  C8_addItem_appends_line sampleEnv { emptyCart with items := [sampleLine "fries" "fries" 60 1] }
    (sampleDish "shawarma-chicken" 125) (some { name := "Mini", price := 115, weight := none })
    2 {} (by decide) (by decide) (by decide) (by decide)

theorem string_append_eq_append (a b c d : String) (h : a ++ b = c ++ d) :
    (∃ r, c = a ++ r ∧ b = r ++ d) ∨ (∃ r, a = c ++ r ∧ d = r ++ b) := by
  have h2 : a.data ++ b.data = c.data ++ d.data := by
    have := congrArg String.data h
    simpa using this
  rcases List.append_eq_append_iff.mp h2 with ⟨r, h3, h4⟩ | ⟨r, h3, h4⟩
  · left
    exact ⟨String.mk r, String.ext (by simp [h3]), String.ext (by simp [h4])⟩
  · right
    exact ⟨String.mk r, String.ext (by simp [h3]), String.ext (by simp [h4])⟩

/-- If a hyphen-led text equals `r` followed by a hyphen-led text, then `r` is
empty or itself starts with a hyphen. -/
theorem hyphen_led_split (x r y : String) (h : "-" ++ x = r ++ ("-" ++ y)) :
    (r = "" ∧ x = y) ∨ ∃ t, r = "-" ++ t := by
  have h2 : '-' :: x.data = r.data ++ '-' :: y.data := by
    have := congrArg String.data h
    simpa using this
  cases hr : r.data with
  | nil =>
    left
    rw [hr] at h2
    simp at h2
    exact ⟨String.ext (by simp [hr]), String.ext h2⟩
  | cons c cs =>
    right
    rw [hr] at h2
    simp at h2
    refine ⟨String.mk cs, String.ext ?_⟩
    simp [hr, ← h2.1]

theorem createCartItem_id_default (env : Env) (d : Dish) (s : Option Size) (q : Int) :
    (createCartItem env d s q {}).id = d.id ++ (match s with
      | some s => "-" ++ env.toLowerCase s.name
      | none => "") := rfl

/-- Two sized adds with equal line ids: the dish ids are equal and the
lower-cased size names too, or one dish id is the other followed by a hyphen
and more text. -/
theorem sized_ids_eq (a b x y : String) (h : a ++ ("-" ++ x) = b ++ ("-" ++ y)) :
    (a = b ∧ x = y) ∨ (∃ t, b = a ++ "-" ++ t) ∨ (∃ t, a = b ++ "-" ++ t) := by
  rcases string_append_eq_append a ("-" ++ x) b ("-" ++ y) h with ⟨r, h1, h2⟩ | ⟨r, h1, h2⟩
  · rcases hyphen_led_split x r y h2 with ⟨hr, hxy⟩ | ⟨t, ht⟩
    · left
      subst hr
      exact ⟨by simpa using h1.symm, hxy⟩
    · right; left
      exact ⟨t, by rw [h1, ht, String.append_assoc]⟩
  · rcases hyphen_led_split y r x h2 with ⟨hr, hxy⟩ | ⟨t, ht⟩
    · left
      subst hr
      exact ⟨by simpa using h1, hxy.symm⟩
    · right; right
      exact ⟨t, by rw [h1, ht, String.append_assoc]⟩

/-- C9 (counterexample): the dish `combo-mini` without size and the dish
`combo` in size `Mini` get the same line id although the dish ids differ. -/
theorem C9_line_id_collision_counterexample :
    (createCartItem sampleEnv (sampleDish "combo-mini" 200) none 1 {}).id =
      (createCartItem sampleEnv (sampleDish "combo" 150)
        (some { name := "Mini", price := 90, weight := none }) 1 {}).id ∧
    ¬ ((sampleDish "combo-mini" 200).id = (sampleDish "combo" 150).id ∧
      sameSizeName sampleEnv none (some { name := "Mini", price := 90, weight := none }) = true) := by
  decide

/-- C9 (amended): for two dishes neither of whose ids is the id of the other
followed by a hyphen and further text, and all optional sizes, the line ids
computed by `createCartItem` are equal if and only if the dish ids are equal
and the sizes are both absent or both present with names equal after
lower-casing. -/
theorem C9_line_id_identifies_combination (env : Env) (d1 d2 : Dish) (s1 s2 : Option Size)
    (q1 q2 : Int)
    (h12 : ¬ ∃ t, d2.id = d1.id ++ "-" ++ t) (h21 : ¬ ∃ t, d1.id = d2.id ++ "-" ++ t) :
    (createCartItem env d1 s1 q1 {}).id = (createCartItem env d2 s2 q2 {}).id ↔
      (d1.id = d2.id ∧ sameSizeName env s1 s2 = true) := by
  rw [createCartItem_id_default, createCartItem_id_default]
  cases s1 with
  | none =>
    cases s2 with
    | none => simp [sameSizeName]
    | some b =>
      simp only [sameSizeName, String.append_empty]
      constructor
      · intro h
        exact absurd ⟨env.toLowerCase b.name, by rw [h, String.append_assoc]⟩ h21
      · intro h
        exact absurd h.2 (by simp)
  | some a =>
    cases s2 with
    | none =>
      simp only [sameSizeName, String.append_empty]
      constructor
      · intro h
        exact absurd ⟨env.toLowerCase a.name, by rw [← h, String.append_assoc]⟩ h12
      · intro h
        exact absurd h.2 (by simp)
    | some b =>
      simp only [sameSizeName, beq_iff_eq]
      constructor
      · intro h
        rcases sized_ids_eq _ _ _ _ h with h3 | h3 | h3
        · exact h3
        · exact absurd h3 h12
        · exact absurd h3 h21
      · rintro ⟨h3, h4⟩
        rw [h3, h4]

/-- Witness of C9: the same dish in the sizes `Mini` and `MINI`. -/
theorem C9_line_id_identifies_combination_witness :
    (createCartItem sampleEnv (sampleDish "shawarma-chicken" 125)
        (some { name := "Mini", price := 115, weight := none }) 1 {}).id =
      (createCartItem sampleEnv (sampleDish "shawarma-chicken" 125)
        (some { name := "MINI", price := 115, weight := none }) 2 {}).id ↔
      ((sampleDish "shawarma-chicken" 125).id = (sampleDish "shawarma-chicken" 125).id ∧
        sameSizeName sampleEnv (some { name := "Mini", price := 115, weight := none })
          (some { name := "MINI", price := 115, weight := none }) = true) :=
  C9_line_id_identifies_combination sampleEnv (sampleDish "shawarma-chicken" 125)
    (sampleDish "shawarma-chicken" 125) (some { name := "Mini", price := 115, weight := none })
    (some { name := "MINI", price := 115, weight := none }) 1 2
    (by
      rintro ⟨t, ht⟩
      have hlen := congrArg String.length ht
      simp only [sampleDish, String.length_append] at hlen
      have e1 : ("shawarma-chicken" : String).length = 16 := by decide
      have e2 : ("-" : String).length = 1 := by decide
      omega)
    (by
      rintro ⟨t, ht⟩
      have hlen := congrArg String.length ht
      simp only [sampleDish, String.length_append] at hlen
      have e1 : ("shawarma-chicken" : String).length = 16 := by decide
      have e2 : ("-" : String).length = 1 := by decide
      omega)

theorem no_other_line_with_id (pre : List LineItem) (L : LineItem) (post : List LineItem)
    (h : ((pre ++ L :: post).map (·.id)).Nodup) : ∀ x ∈ pre ++ post, x.id ≠ L.id := by
  simp only [List.map_append, List.map_cons] at h
  have h1 := List.nodup_append.mp h
  have h2 := List.nodup_cons.mp h1.2.1
  intro x hx hid
  rcases List.mem_append.mp hx with hx | hx
  · exact List.disjoint_left.mp h1.2.2 (List.mem_map_of_mem _ hx) (by simp [hid])
  · exact h2.1 (by rw [← hid]; exact List.mem_map_of_mem _ hx)

/-- C11 (counterexample): a cart hydrated from a payload of two valid lines
with the same id; the second `removeItem` deletes the second line and returns
`true`. -/
theorem C11_removeItem_twice_counterexample :
    (removeItem sampleEnv (removeItem sampleEnv hydratedDuplicateCart "fries").1 "fries").2 =
      .ok true ∧
    (removeItem sampleEnv (removeItem sampleEnv hydratedDuplicateCart "fries").1 "fries").1.items ≠
      (removeItem sampleEnv hydratedDuplicateCart "fries").1.items :=
  ⟨rfl, by decide⟩

/-- C11 (amended): in a cart whose lines have pairwise distinct ids, a second
`removeItem(id)` right after the first returns `false` and leaves the manager
in the state the first call left. -/
theorem C11_removeItem_idempotent (env1 env2 : Env) (cm : CartManager) (itemId : String)
    (hids : (cm.items.map (·.id)).Nodup) :
    removeItem env2 (removeItem env1 cm itemId).1 itemId =
      ((removeItem env1 cm itemId).1, .ok false) := by
  rcases first_line_with_id cm.items itemId with hmiss | ⟨pre, L, post, hl, hL, hpre⟩
  · rw [removeItem_missing env1 cm itemId hmiss]
    exact removeItem_missing env2 cm itemId hmiss
  · apply removeItem_missing
    rw [(removeItem_found env1 cm itemId pre L post hl hL hpre).1]
    rw [hl] at hids
    intro x hx
    rw [← hL]
    exact no_other_line_with_id pre L post hids x hx

/-- Witness of C11: removing the middle line of three twice. -/
theorem C11_removeItem_idempotent_witness :
    removeItem sampleEnv
      (removeItem sampleEnv
        { emptyCart with items :=
            [sampleLine "fries" "fries" 60 1, sampleLine "cola" "cola" 35 2,
             sampleLine "tan" "tan" 40 1] } "cola").1 "cola" =
      ((removeItem sampleEnv
        { emptyCart with items :=
            [sampleLine "fries" "fries" 60 1, sampleLine "cola" "cola" 35 2,
             sampleLine "tan" "tan" 40 1] } "cola").1, .ok false) :=
  C11_removeItem_idempotent sampleEnv sampleEnv
    { emptyCart with items :=
        [sampleLine "fries" "fries" 60 1, sampleLine "cola" "cola" 35 2,
         sampleLine "tan" "tan" 40 1] } "cola" (by simp [emptyCart, sampleLine])

/-- C12: for `newQuantity <= 0`, `updateQuantity(lineId, newQuantity)` is the
call `removeItem(lineId)`: same return value, same resulting manager. -/
theorem C12_updateQuantity_nonpositive_is_removeItem (env : Env) (cm : CartManager)
    (lineId : String) (newQuantity : Int) (h : newQuantity ≤ 0) :
    updateQuantity env cm lineId newQuantity = removeItem env cm lineId := by
  unfold updateQuantity
  rw [if_pos h]

/-- Witness of C12: `updateQuantity("cola", 0)` on a cart of two lines. -/
theorem C12_updateQuantity_nonpositive_is_removeItem_witness :
    updateQuantity sampleEnv
      { emptyCart with items := [sampleLine "fries" "fries" 60 1, sampleLine "cola" "cola" 35 2] }
      "cola" 0 =
    removeItem sampleEnv
      { emptyCart with items := [sampleLine "fries" "fries" 60 1, sampleLine "cola" "cola" 35 2] }
      "cola" :=
  C12_updateQuantity_nonpositive_is_removeItem sampleEnv
    { emptyCart with items := [sampleLine "fries" "fries" 60 1, sampleLine "cola" "cola" 35 2] }
    "cola" 0 (by decide)

/-- C13: for `newQuantity > 0`: above 10 the call returns `false` and changes
nothing; otherwise, if a line with the id exists, it returns `true` and the
list afterwards is the same list with that line (the first with the id) set
to the new quantity and a fresh `updatedAt`, all else unchanged; if no line
has the id it returns `false` and changes nothing. -/
theorem C13_updateQuantity_positive (env : Env) (cm : CartManager) (lineId : String)
    (newQuantity : Int) (hpos : 0 < newQuantity) :
    (newQuantity > 10 → updateQuantity env cm lineId newQuantity = (cm, .ok false)) ∧
    (newQuantity ≤ 10 → (∃ x ∈ cm.items, x.id = lineId) →
      (updateQuantity env cm lineId newQuantity).2 = .ok true ∧
      ∃ pre L post, cm.items = pre ++ L :: post ∧ L.id = lineId ∧
        (∀ x ∈ pre, x.id ≠ lineId) ∧
        (updateQuantity env cm lineId newQuantity).1.items =
          pre ++ { L with quantity := newQuantity, updatedAt := env.now } :: post) ∧
    (newQuantity ≤ 10 → (∀ x ∈ cm.items, x.id ≠ lineId) →
      updateQuantity env cm lineId newQuantity = (cm, .ok false)) := by
  refine ⟨?_, ?_, ?_⟩
  · intro hten
    unfold updateQuantity
    rw [if_neg (by omega), if_pos hten]
  · intro hten hex
    rcases first_line_with_id cm.items lineId with hmiss | ⟨pre, L, post, hl, hL, hpre⟩
    · obtain ⟨x, hx, hxid⟩ := hex
      exact absurd hxid (hmiss x hx)
    · obtain ⟨h1, h2⟩ := updateQuantity_found env cm lineId newQuantity pre L post hpos hten
        hl hL hpre
      exact ⟨h2, pre, L, post, hl, hL, hpre, h1⟩
  · intro _ hmiss
    exact updateQuantity_missing env cm lineId newQuantity hpos hmiss

/-- Witness of C13: 11 is refused, 4 is set on the line `cola`, `tan` is missing. -/
theorem C13_updateQuantity_positive_witness :
    updateQuantity sampleEnv
      { emptyCart with items := [sampleLine "fries" "fries" 60 1, sampleLine "cola" "cola" 35 2] }
      "cola" 11 =
      ({ emptyCart with items := [sampleLine "fries" "fries" 60 1, sampleLine "cola" "cola" 35 2] },
        .ok false) ∧
    ((updateQuantity sampleEnv
      { emptyCart with items := [sampleLine "fries" "fries" 60 1, sampleLine "cola" "cola" 35 2] }
      "cola" 4).2 = .ok true ∧
      ∃ pre L post,
        [sampleLine "fries" "fries" 60 1, sampleLine "cola" "cola" 35 2] = pre ++ L :: post ∧
        L.id = "cola" ∧ (∀ x ∈ pre, x.id ≠ "cola") ∧
        (updateQuantity sampleEnv
          { emptyCart with
            items := [sampleLine "fries" "fries" 60 1, sampleLine "cola" "cola" 35 2] }
          "cola" 4).1.items =
          pre ++ { L with quantity := 4, updatedAt := sampleEnv.now } :: post) ∧
    updateQuantity sampleEnv
      { emptyCart with items := [sampleLine "fries" "fries" 60 1, sampleLine "cola" "cola" 35 2] }
      "tan" 4 =
      ({ emptyCart with items := [sampleLine "fries" "fries" 60 1, sampleLine "cola" "cola" 35 2] },
        .ok false) :=
  ⟨(C13_updateQuantity_positive sampleEnv
      { emptyCart with items := [sampleLine "fries" "fries" 60 1, sampleLine "cola" "cola" 35 2] }
      "cola" 11 (by decide)).1 (by decide),
    (C13_updateQuantity_positive sampleEnv
      { emptyCart with items := [sampleLine "fries" "fries" 60 1, sampleLine "cola" "cola" 35 2] }
      "cola" 4 (by decide)).2.1 (by decide) ⟨sampleLine "cola" "cola" 35 2, by decide, rfl⟩,
    (C13_updateQuantity_positive sampleEnv
      { emptyCart with items := [sampleLine "fries" "fries" 60 1, sampleLine "cola" "cola" 35 2] }
      "tan" 4 (by decide)).2.2 (by decide) (by decide)⟩

theorem getSubtotal_eq_sum (items : List LineItem) :
    getSubtotal items = (items.map (fun item => item.price * item.quantity)).sum := by
  have h : ∀ (l : List LineItem) (a : Int),
      l.foldl (fun sum item => sum + item.price * item.quantity) a =
        a + (l.map (fun item => item.price * item.quantity)).sum := by
    intro l
    induction l with
    | nil => intro a; simp
    | cons x xs ih => intro a; simp [ih, add_assoc]
  simpa [getSubtotal] using h items 0

/-- C14: `clearCart` on an empty cart returns the manager unchanged, the count
of confirmation dialogs included: the user is never asked. On a non-empty cart
the user is asked once; if the confirmation is refused nothing else changes
(item list, storage, statistics and telemetry are as before, so nothing is
persisted), and if it is granted the item list becomes empty. -/
theorem C14_clearCart (env : Env) (cm : CartManager) :
    (cm.items = [] →
      clearCart env cm = (cm, .ok ()) ∧
      (clearCart env cm).1.confirmPrompts = cm.confirmPrompts) ∧
    (cm.items ≠ [] → env.confirmClear = false →
      clearCart env cm = ({ cm with confirmPrompts := cm.confirmPrompts + 1 }, .ok ()) ∧
      (clearCart env cm).1.items = cm.items ∧
      (clearCart env cm).1.storage = cm.storage) ∧
    (cm.items ≠ [] → env.confirmClear = true →
      (clearCart env cm).1.items = [] ∧
      (clearCart env cm).1.confirmPrompts = cm.confirmPrompts + 1 ∧
      (clearCart env cm).2 = .ok ()) := by
  refine ⟨?_, ?_, ?_⟩
  · intro h
    have heq : clearCart env cm = (cm, .ok ()) := by
      unfold clearCart
      rw [if_pos (by simp [h])]
    exact ⟨heq, by rw [heq]⟩
  · intro h hc
    have hlen : ¬ cm.items.length = 0 := by simpa using h
    have heq : clearCart env cm =
        ({ cm with confirmPrompts := cm.confirmPrompts + 1 }, .ok ()) := by
      unfold clearCart
      rw [if_neg hlen]
      simp only
      rw [if_pos (by simp [hc])]
    exact ⟨heq, by rw [heq], by rw [heq]⟩
  · intro h hc
    have hlen : ¬ cm.items.length = 0 := by simpa using h
    unfold clearCart
    rw [if_neg hlen]
    simp only
    rw [if_neg (by simp [hc])]
    simp [trackEvent, saveCartToStorage]
    refine ⟨?_, ?_⟩ <;> split_ifs <;> simp

/-- Witness of C14: the empty cart, a refused and a granted clearing of a cart
with one line. -/
theorem C14_clearCart_witness :
    (clearCart sampleEnv emptyCart = (emptyCart, .ok ()) ∧
      (clearCart sampleEnv emptyCart).1.confirmPrompts = emptyCart.confirmPrompts) ∧
    (clearCart refusingEnv { emptyCart with items := [sampleLine "fries" "fries" 60 1] } =
        ({ ({ emptyCart with items := [sampleLine "fries" "fries" 60 1] } : CartManager) with
            confirmPrompts :=
              ({ emptyCart with items := [sampleLine "fries" "fries" 60 1] } :
                CartManager).confirmPrompts + 1 }, .ok ()) ∧
      (clearCart refusingEnv
        { emptyCart with items := [sampleLine "fries" "fries" 60 1] }).1.items =
        [sampleLine "fries" "fries" 60 1] ∧
      (clearCart refusingEnv
        { emptyCart with items := [sampleLine "fries" "fries" 60 1] }).1.storage = none) ∧
    ((clearCart sampleEnv { emptyCart with items := [sampleLine "fries" "fries" 60 1] }).1.items
        = [] ∧
      (clearCart sampleEnv
        { emptyCart with items := [sampleLine "fries" "fries" 60 1] }).1.confirmPrompts =
        ({ emptyCart with items := [sampleLine "fries" "fries" 60 1] } :
          CartManager).confirmPrompts + 1 ∧
      (clearCart sampleEnv { emptyCart with items := [sampleLine "fries" "fries" 60 1] }).2
        = .ok ()) :=
  ⟨(C14_clearCart sampleEnv emptyCart).1 rfl,
    (C14_clearCart refusingEnv
      { emptyCart with items := [sampleLine "fries" "fries" 60 1] }).2.1 (by decide) rfl,
    (C14_clearCart sampleEnv { emptyCart with items := [sampleLine "fries" "fries" 60 1] }).2.2
      (by decide) rfl⟩

/-- C15: `getItemCount` is the sum of the quantities, `getSubtotal` the sum of
`price * quantity` over the lines, `getTotal` is `getSubtotal + getDeliveryFee`,
and `getCartData` reports these values in `itemCount`, `subtotal`,
`deliveryFee` and `total`. -/
theorem C15_derived_totals (env : Env) (catalog : List Dish) (cm : CartManager) :
    getItemCount cm.items = (cm.items.map (·.quantity)).sum ∧
    getSubtotal cm.items = (cm.items.map (fun item => item.price * item.quantity)).sum ∧
    getTotal cm.items = getSubtotal cm.items + getDeliveryFee cm.items ∧
    (getCartData env catalog cm).itemCount = getItemCount cm.items ∧
    (getCartData env catalog cm).subtotal = getSubtotal cm.items ∧
    (getCartData env catalog cm).deliveryFee = getDeliveryFee cm.items ∧
    (getCartData env catalog cm).total = getSubtotal cm.items + getDeliveryFee cm.items :=
  ⟨getItemCount_eq_sum cm.items, getSubtotal_eq_sum cm.items, rfl, rfl, rfl, rfl, rfl⟩

/-- C16: with `freeDeliveryThreshold = 300` and `deliveryFee = 30`, the fee is
0 exactly when the subtotal is at least 300 and 30 otherwise; the empty cart
pays the fee and a subtotal of exactly 300 is free. -/
theorem C16_deliveryFee (items : List LineItem) :
    CONFIG.cart.freeDeliveryThreshold = 300 ∧ CONFIG.cart.deliveryFee = 30 ∧
    (getDeliveryFee items = 0 ↔ getSubtotal items ≥ 300) ∧
    (getSubtotal items < 300 → getDeliveryFee items = 30) ∧
    getDeliveryFee [] = 30 ∧
    (getSubtotal items = 300 → getDeliveryFee items = 0) := by
  refine ⟨rfl, rfl, ?_, ?_, by decide, ?_⟩
  · unfold getDeliveryFee CONFIG.cart.freeDeliveryThreshold CONFIG.cart.deliveryFee
    by_cases h : getSubtotal items ≥ 300
    · simp [h]
    · simp [h]
  · intro h
    unfold getDeliveryFee CONFIG.cart.freeDeliveryThreshold CONFIG.cart.deliveryFee
    simp only
    rw [if_neg (by omega)]
  · intro h
    unfold getDeliveryFee CONFIG.cart.freeDeliveryThreshold
    simp only
    rw [if_pos (by omega)]

/-- Witness of C16: a subtotal of 250 pays 30, a subtotal of exactly 300 pays nothing. -/
theorem C16_deliveryFee_witness :
    getDeliveryFee [sampleLine "shawarma-chicken" "shawarma-chicken" 125 2] = 30 ∧
    getDeliveryFee [sampleLine "lyulya-beef" "lyulya-beef" 150 2] = 0 :=
  ⟨(C16_deliveryFee [sampleLine "shawarma-chicken" "shawarma-chicken" 125 2]).2.2.2.1 (by decide),
    (C16_deliveryFee [sampleLine "lyulya-beef" "lyulya-beef" 150 2]).2.2.2.2.2 (by decide)⟩

/-- C17: `isValidOrder` is true exactly when the cart is non-empty, the
subtotal is at least `minOrderAmount` (150) and the restaurant is open;
`getCartData().isValid` is that value, and `proceedToCheckout` ends on
`openCheckoutModal` exactly when `isValidOrder` is true. -/
theorem C17_isValidOrder (env : Env) (catalog : List Dish) (cm : CartManager) :
    CONFIG.cart.minOrderAmount = 150 ∧
    (isValidOrder env cm.items = true ↔
      cm.items ≠ [] ∧ getSubtotal cm.items ≥ CONFIG.cart.minOrderAmount ∧
        isRestaurantOpen env = true) ∧
    (getCartData env catalog cm).isValid = isValidOrder env cm.items ∧
    ((proceedToCheckout env cm).2 = .openCheckoutModal ↔ isValidOrder env cm.items = true) := by
  refine ⟨rfl, ?_, rfl, ?_⟩
  · unfold isValidOrder
    simp only [Bool.and_eq_true, decide_eq_true_eq]
    constructor
    · rintro ⟨⟨h1, h2⟩, h3⟩
      exact ⟨by intro h; simp [h] at h1, h2, h3⟩
    · rintro ⟨h1, h2, h3⟩
      exact ⟨⟨List.length_pos.mpr h1, h2⟩, h3⟩
  · unfold proceedToCheckout
    cases h : isValidOrder env cm.items <;> simp

theorem validateCartItem_eq_keptOnReload (catalog : List Dish) (item : LineItem) :
    validateCartItem catalog item = keptOnReload catalog item := by
  unfold validateCartItem keptOnReload hasTruthyRequiredFields
  by_cases h1 : item.id = ""
  · simp [h1]
  by_cases h2 : item.dishId = ""
  · simp [h2]
  by_cases h3 : item.name = ""
  · simp [h3]
  by_cases h4 : item.price = 0
  · simp [h4]
  by_cases h5 : item.quantity = 0
  · simp [h5]
  cases hd : getDishById catalog item.dishId with
  | none => simp [h1, h2, h3, h4, h5]
  | some d =>
    by_cases h6 : item.quantity ≤ 0
    · have h7 : ¬ (1 ≤ item.quantity) := by omega
      simp [h1, h2, h3, h4, h5, h6, h7]
    · by_cases h8 : item.quantity > 10
      · have h9 : ¬ (item.quantity ≤ 10) := by omega
        simp [h1, h2, h3, h4, h5, h8, h9]
      · have h7 : 1 ≤ item.quantity := by omega
        have h9 : item.quantity ≤ 10 := by omega
        simp [h1, h2, h3, h4, h5, h6, h7, h8, h9]

@[simp] theorem otherTab_storage (other cm : CartManager) :
    (otherTab other cm).storage = cm.storage := rfl

theorem storedItems_saveCartToStorage (env : Env) (cm : CartManager)
    (hw : env.storageWritable = true) : storedItems (saveCartToStorage env cm) = cm.items := by
  simp [storedItems, saveCartToStorage, hw]

theorem storedItems_congr (a b : CartManager) (h : a.storage = b.storage) :
    storedItems a = storedItems b := by
  unfold storedItems
  rw [h]

/-- C18 (counterexample): a dish of price 0 is added to the empty cart; the
catalog holds the dish, yet the line is gone after saving and reloading. -/
theorem C18_round_trip_counterexample :
    (runOps emptyCart
      [(sampleEnv, .addItem (some (sampleDish "water" 0)) none 1 {})]).items.map
      (fun l => (l.id, l.dishId, l.quantity, l.price)) = [("water", "water", 1, 0)] ∧
    (getDishById [sampleDish "water" 0] "water").isSome = true ∧
    (loadCartFromStorage [sampleDish "water" 0]
      (saveCartToStorage sampleEnv (runOps emptyCart
        [(sampleEnv, .addItem (some (sampleDish "water" 0)) none 1 {})]))).items = [] := by
  decide

/-- C18 (amended): for every cart state whose lines all have a non-empty id,
dishId and name, a non-zero price and `1 <= quantity <= 10`, and every catalog
that holds the dish of every line, saving to a storage that accepts the write
and reloading, in the same store or in another one that shares the storage,
gives back exactly the same item list. -/
theorem C18_round_trip (env : Env) (catalog : List Dish) (cm other : CartManager)
    (hw : env.storageWritable = true)
    (hfields : ∀ x ∈ cm.items, hasTruthyRequiredFields x = true)
    (hqty : ∀ x ∈ cm.items, 1 ≤ x.quantity ∧ x.quantity ≤ 10)
    (hcat : ∀ x ∈ cm.items, (getDishById catalog x.dishId).isSome = true) :
    (loadCartFromStorage catalog (saveCartToStorage env cm)).items = cm.items ∧
    (loadCartFromStorage catalog (otherTab other (saveCartToStorage env cm))).items =
      cm.items := by
  have hkeep : cm.items.filter (fun item => validateCartItem catalog item) = cm.items := by
    rw [List.filter_eq_self]
    intro x hx
    rw [validateCartItem_eq_keptOnReload]
    unfold keptOnReload
    simp [hfields x hx, hcat x hx, (hqty x hx).1, (hqty x hx).2]
  constructor
  · rw [loadCartFromStorage_items, storedItems_saveCartToStorage env cm hw, hkeep]
  · rw [loadCartFromStorage_items,
      storedItems_congr _ (saveCartToStorage env cm) (otherTab_storage _ _),
      storedItems_saveCartToStorage env cm hw, hkeep]

/-- Witness of C18: a cart of two lines and a catalog with both dishes. -/
theorem C18_round_trip_witness :
    (loadCartFromStorage [sampleDish "fries" 60, sampleDish "cola" 35]
      (saveCartToStorage sampleEnv
        { emptyCart with
          items := [sampleLine "fries" "fries" 60 1, sampleLine "cola" "cola" 35 2] })).items =
      [sampleLine "fries" "fries" 60 1, sampleLine "cola" "cola" 35 2] ∧
    (loadCartFromStorage [sampleDish "fries" 60, sampleDish "cola" 35]
      (otherTab emptyCart (saveCartToStorage sampleEnv
        { emptyCart with
          items := [sampleLine "fries" "fries" 60 1, sampleLine "cola" "cola" 35 2] }))).items =
      [sampleLine "fries" "fries" 60 1, sampleLine "cola" "cola" 35 2] :=
  C18_round_trip sampleEnv [sampleDish "fries" 60, sampleDish "cola" 35]
    { emptyCart with items := [sampleLine "fries" "fries" 60 1, sampleLine "cola" "cola" 35 2] }
    emptyCart rfl (by decide) (by decide) (by decide)

/-- C19 (counterexample): a stored line with every required field there, its
dish in the catalog and quantity 1, but price 0, is dropped on reload. -/
theorem C19_price_zero_counterexample :
    (loadCartFromStorage [sampleDish "water" 0]
      { emptyCart with
        storage := some (samplePayload [sampleLine "water" "water" 0 1]) }).items = [] ∧
    (sampleLine "water" "water" 0 1).id = "water" ∧
    (sampleLine "water" "water" 0 1).dishId = "water" ∧
    (sampleLine "water" "water" 0 1).name = "water" ∧
    (sampleLine "water" "water" 0 1).price = 0 ∧
    (sampleLine "water" "water" 0 1).quantity = 1 ∧
    (getDishById [sampleDish "water" 0] "water").isSome = true := by
  decide

/-- C19 (amended): `loadCartFromStorage` sets the item list to the sub-list,
in stored order, of the stored lines whose id, dishId and name are non-empty
and whose price and quantity are non-zero, whose dishId resolves in the
catalog and whose quantity is between 1 and 10; when the key is absent or the
payload has no items list the cart becomes empty. -/
theorem C19_loadCartFromStorage (catalog : List Dish) (cm : CartManager) :
    (loadCartFromStorage catalog cm).items =
      (storedItems cm).filter (fun item => keptOnReload catalog item) ∧
    (cm.storage = none → (loadCartFromStorage catalog cm).items = []) ∧
    (∀ cartData, cm.storage = some cartData → cartData.items = none →
      (loadCartFromStorage catalog cm).items = []) := by
  refine ⟨?_, ?_, ?_⟩
  · rw [loadCartFromStorage_items]
    congr 1
    funext item
    exact validateCartItem_eq_keptOnReload catalog item
  · intro h
    rw [loadCartFromStorage_items]
    simp [storedItems, h]
  · intro cartData h1 h2
    rw [loadCartFromStorage_items]
    simp [storedItems, h1, h2]

/-- Witness of C19: an absent key, and a payload without an items list. -/
theorem C19_loadCartFromStorage_witness :
    (loadCartFromStorage [sampleDish "fries" 60]
      { emptyCart with items := [sampleLine "fries" "fries" 60 1] }).items = [] ∧
    (loadCartFromStorage [sampleDish "fries" 60]
      { emptyCart with
        items := [sampleLine "fries" "fries" 60 1],
        storage := some { items := none, savedAt := none, version := none } }).items = [] :=
  ⟨(C19_loadCartFromStorage [sampleDish "fries" 60]
      { emptyCart with items := [sampleLine "fries" "fries" 60 1] }).2.1 rfl,
    (C19_loadCartFromStorage [sampleDish "fries" 60]
      { emptyCart with
        items := [sampleLine "fries" "fries" 60 1],
        storage := some { items := none, savedAt := none, version := none } }).2.2
      { items := none, savedAt := none, version := none } rfl rfl⟩

@[simp] theorem trackEvent_storage (env : Env) (cm : CartManager) (n : Option String)
    (data : List (String × PropValue)) : (trackEvent env cm n data).storage = cm.storage := by
  unfold trackEvent
  split <;> rfl

theorem saveCartToStorage_storage (env : Env) (cm : CartManager)
    (hw : env.storageWritable = true) :
    (saveCartToStorage env cm).storage =
      some { items := some cm.items, savedAt := some env.now, version := some "1.0" } := by
  simp [saveCartToStorage, hw]

theorem removeItem_found_storage (env : Env) (cm : CartManager) (itemId : String)
    (pre : List LineItem) (L : LineItem) (post : List LineItem)
    (hw : env.storageWritable = true)
    (hitems : cm.items = pre ++ L :: post) (hL : L.id = itemId)
    (hpre : ∀ x ∈ pre, x.id ≠ itemId) :
    (removeItem env cm itemId).1.storage =
      some { items := some (pre ++ post), savedAt := some env.now, version := some "1.0" } := by
  have hf : findIndex (fun item => item.id == itemId) cm.items = some pre.length := by
    rw [hitems]
    refine findIndex_append_cons _ pre L post (by simp [hL]) ?_
    intro y hy
    simpa using hpre y hy
  have hg : cm.items.get? pre.length = some L := by
    rw [hitems]; exact get?_append_cons_length pre L post
  unfold removeItem
  simp only [hf, hg, trackEvent_storage]
  rw [saveCartToStorage_storage env _ hw, hitems, splice1_append_cons]

theorem updateQuantity_found_storage (env : Env) (cm : CartManager) (itemId : String) (n : Int)
    (pre : List LineItem) (L : LineItem) (post : List LineItem)
    (hw : env.storageWritable = true)
    (hpos : 0 < n) (hten : n ≤ 10)
    (hitems : cm.items = pre ++ L :: post) (hL : L.id = itemId)
    (hpre : ∀ x ∈ pre, x.id ≠ itemId) :
    (updateQuantity env cm itemId n).1.storage =
      some { items := some (pre ++ { L with quantity := n, updatedAt := env.now } :: post),
             savedAt := some env.now, version := some "1.0" } := by
  have hf : findIndex (fun item => item.id == itemId) cm.items = some pre.length := by
    rw [hitems]
    refine findIndex_append_cons _ pre L post (by simp [hL]) ?_
    intro y hy
    simpa using hpre y hy
  have hg : cm.items.get? pre.length = some L := by
    rw [hitems]; exact get?_append_cons_length pre L post
  unfold updateQuantity
  rw [if_neg (by omega), if_neg (by omega)]
  simp only [hf, hg, trackEvent_storage]
  rw [saveCartToStorage_storage env _ hw, hitems, modifyAt_append_cons]

/-- With a storage that accepts writes, one call either leaves the item list
as it was or leaves in storage the payload built from the new item list. -/
theorem applyOp_unchanged_or_saved (env : Env) (cm : CartManager) (op : CartOp)
    (hw : env.storageWritable = true) :
    (applyOp env cm op).items = cm.items ∨
    (applyOp env cm op).storage =
      some { items := some (applyOp env cm op).items, savedAt := some env.now,
             version := some "1.0" } := by
  have hrem : ∀ itemId : String,
      (removeItem env cm itemId).1.items = cm.items ∨
      (removeItem env cm itemId).1.storage =
        some { items := some (removeItem env cm itemId).1.items, savedAt := some env.now,
               version := some "1.0" } := by
    intro itemId
    rcases first_line_with_id cm.items itemId with hmiss | ⟨pre, L, post, hl, hL, hpre⟩
    · left; rw [removeItem_missing env cm itemId hmiss]
    · right
      rw [(removeItem_found env cm itemId pre L post hl hL hpre).1]
      exact removeItem_found_storage env cm itemId pre L post hw hl hL hpre
  cases op with
  | addItem dish s q o =>
    simp only [applyOp]
    by_cases hg : dish = none ∨ (∃ d, dish = some d ∧ d.id = "") ∨ q ≤ 0 ∨
        getItemCount cm.items + q > CONFIG.cart.maxItems
    · left; rw [addItem_guard_reject env cm dish s q o hg]
    · simp only [not_or, not_exists, not_and, not_le, not_lt] at hg
      obtain ⟨hsome, hid, hq, hmax⟩ := hg
      cases dish with
      | none => exact absurd rfl hsome
      | some d =>
        have hid2 : d.id ≠ "" := hid d rfl
        rcases first_line_with_id cm.items (createCartItem env d s q o).id with
          hnew | ⟨pre, L, post, hl, hL, hpre⟩
        · right
          obtain ⟨e, he⟩ := addItem_new_accept env cm d s q o hid2 hq hmax hnew
          rw [he]
          simp [saveCartToStorage, hw]
        · by_cases hten : L.quantity + q > 10
          · left; rw [addItem_existing_reject env cm d s q o pre L post hl hL hpre hten]
          · right
            obtain ⟨e, he⟩ := addItem_existing_accept env cm d s q o pre L post hid2 hq hmax
              hl hL hpre (by omega)
            rw [he]
            simp [saveCartToStorage, hw]
  | removeItem itemId =>
    simp only [applyOp]
    exact hrem itemId
  | updateQuantity itemId n =>
    simp only [applyOp]
    by_cases hn : n ≤ 0
    · have : updateQuantity env cm itemId n = removeItem env cm itemId := by
        unfold updateQuantity; rw [if_pos hn]
      rw [this]
      exact hrem itemId
    · by_cases hten : n > 10
      · left; unfold updateQuantity; rw [if_neg hn, if_pos hten]
      · rcases first_line_with_id cm.items itemId with hmiss | ⟨pre, L, post, hl, hL, hpre⟩
        · left; rw [updateQuantity_missing env cm itemId n (by omega) hmiss]
        · right
          rw [(updateQuantity_found env cm itemId n pre L post (by omega) (by omega)
            hl hL hpre).1]
          exact updateQuantity_found_storage env cm itemId n pre L post hw (by omega) (by omega)
            hl hL hpre
  | clearCart =>
    simp only [applyOp]
    unfold clearCart
    split_ifs
    · exact Or.inl rfl
    · exact Or.inl rfl
    · right
      simp [saveCartToStorage, hw]

/-- C20: with a storage that accepts writes, after every `addItem`,
`removeItem`, `updateQuantity` or `clearCart` call that changes the item list
(a confirmed `clearCart` of a non-empty cart does), the value stored under the
cart key has an items list equal to the item list in memory and version
`"1.0"`. -/
theorem C20_storage_follows_memory (env : Env) (cm : CartManager) (op : CartOp)
    (hw : env.storageWritable = true)
    (hchange : (applyOp env cm op).items ≠ cm.items) :
    ∃ cartData, (applyOp env cm op).storage = some cartData ∧
      cartData.items = some (applyOp env cm op).items ∧ cartData.version = some "1.0" := by
  rcases applyOp_unchanged_or_saved env cm op hw with h | h
  · exact absurd h hchange
  · exact ⟨_, h, rfl, rfl⟩

/-- Witness of C20: a confirmed `clearCart` of a cart with one line. -/
theorem C20_storage_follows_memory_witness :
    ∃ cartData,
      (applyOp sampleEnv { emptyCart with items := [sampleLine "fries" "fries" 60 1] }
        .clearCart).storage = some cartData ∧
      cartData.items = some (applyOp sampleEnv
        { emptyCart with items := [sampleLine "fries" "fries" 60 1] } .clearCart).items ∧
      cartData.version = some "1.0" :=
  C20_storage_follows_memory sampleEnv { emptyCart with items := [sampleLine "fries" "fries" 60 1] }
    .clearCart rfl (by decide)

theorem addItemAfterMutation_withStorageWritable (env : Env) (ok : Bool) (cm : CartManager)
    (d : Dish) (s : Option Size) (q : Int) (item : LineItem) :
    (addItemAfterMutation (withStorageWritable env ok) cm d s q item).1.items =
      (addItemAfterMutation env cm d s q item).1.items ∧
    (addItemAfterMutation (withStorageWritable env ok) cm d s q item).2 =
      (addItemAfterMutation env cm d s q item).2 := by
  have hb : animateCartBadge (withStorageWritable env ok) = animateCartBadge env := rfl
  obtain ⟨e, he⟩ := animateCartBadge_throws env
  simp [addItemAfterMutation, showAddedFeedback, hb, he]

theorem addItem_withStorageWritable (env : Env) (ok : Bool) (cm : CartManager)
    (dish : Option Dish) (s : Option Size) (q : Int) (o : Options) :
    (addItem (withStorageWritable env ok) cm dish s q o).1.items =
      (addItem env cm dish s q o).1.items ∧
    (addItem (withStorageWritable env ok) cm dish s q o).2 = (addItem env cm dish s q o).2 := by
  have hc : ∀ d, createCartItem (withStorageWritable env ok) d s q o = createCartItem env d s q o :=
    fun _ => rfl
  have hn : (withStorageWritable env ok).now = env.now := rfl
  cases dish with
  | none => exact ⟨rfl, rfl⟩
  | some d =>
    unfold addItem
    simp only [hc, hn]
    by_cases h1 : d.id = ""
    · simp [h1]
    by_cases h2 : q ≤ 0
    · simp [h1, h2]
    by_cases h3 : getItemCount cm.items + q > CONFIG.cart.maxItems
    · simp [h1, h2, h3]
    simp only [h1, h2, h3, if_false]
    cases hf : findIndex (fun i => i.id == (createCartItem env d s q o).id) cm.items with
    | none =>
      simp only
      exact addItemAfterMutation_withStorageWritable env ok _ d s q _
    | some idx =>
      simp only
      cases hg : cm.items.get? idx with
      | none => exact ⟨rfl, rfl⟩
      | some existingItem =>
        simp only
        by_cases h4 : existingItem.quantity + q > 10
        · simp [h4]
        · simp only [h4, if_false]
          exact addItemAfterMutation_withStorageWritable env ok _ d s q _

theorem removeItem_withStorageWritable (env : Env) (ok : Bool) (cm : CartManager)
    (itemId : String) :
    (removeItem (withStorageWritable env ok) cm itemId).1.items =
      (removeItem env cm itemId).1.items ∧
    (removeItem (withStorageWritable env ok) cm itemId).2 = (removeItem env cm itemId).2 := by
  unfold removeItem
  cases hf : findIndex (fun item => item.id == itemId) cm.items with
  | none => exact ⟨rfl, rfl⟩
  | some idx =>
    simp only
    cases hg : cm.items.get? idx with
    | none => exact ⟨rfl, rfl⟩
    | some removedItem => simp

theorem updateQuantity_withStorageWritable (env : Env) (ok : Bool) (cm : CartManager)
    (itemId : String) (n : Int) :
    (updateQuantity (withStorageWritable env ok) cm itemId n).1.items =
      (updateQuantity env cm itemId n).1.items ∧
    (updateQuantity (withStorageWritable env ok) cm itemId n).2 =
      (updateQuantity env cm itemId n).2 := by
  have hn : (withStorageWritable env ok).now = env.now := rfl
  unfold updateQuantity
  by_cases h1 : n ≤ 0
  · simp only [h1, if_true]
    exact removeItem_withStorageWritable env ok cm itemId
  by_cases h2 : n > 10
  · simp [h1, h2]
  simp only [h1, h2, if_false, hn]
  cases hf : findIndex (fun item => item.id == itemId) cm.items with
  | none => exact ⟨rfl, rfl⟩
  | some idx =>
    simp only
    cases hg : cm.items.get? idx with
    | none => exact ⟨rfl, rfl⟩
    | some item => simp

theorem clearCart_withStorageWritable (env : Env) (ok : Bool) (cm : CartManager) :
    (clearCart (withStorageWritable env ok) cm).1.items = (clearCart env cm).1.items ∧
    (clearCart (withStorageWritable env ok) cm).2 = (clearCart env cm).2 := by
  have hc : (withStorageWritable env ok).confirmClear = env.confirmClear := rfl
  unfold clearCart
  rw [hc]
  split_ifs <;> simp

/-- C21: the item list in memory and the completion of `addItem`, `removeItem`,
`updateQuantity` and `clearCart` are the same whether the storage write fails
or succeeds; with a failing write `removeItem`, `updateQuantity` and
`clearCart` still return, and `addItem` completes as it does with a working
storage. -/
theorem C21_failed_write_does_not_roll_back (env : Env) (cm : CartManager)
    (dish : Option Dish) (selectedSize : Option Size) (quantity : Int) (options : Options)
    (itemId : String) (newQuantity : Int) :
    ((addItem (withStorageWritable env false) cm dish selectedSize quantity options).1.items =
        (addItem (withStorageWritable env true) cm dish selectedSize quantity options).1.items ∧
      (addItem (withStorageWritable env false) cm dish selectedSize quantity options).2 =
        (addItem (withStorageWritable env true) cm dish selectedSize quantity options).2) ∧
    ((removeItem (withStorageWritable env false) cm itemId).1.items =
        (removeItem (withStorageWritable env true) cm itemId).1.items ∧
      (removeItem (withStorageWritable env false) cm itemId).2 =
        (removeItem (withStorageWritable env true) cm itemId).2 ∧
      ∃ r, (removeItem (withStorageWritable env false) cm itemId).2 = .ok r) ∧
    ((updateQuantity (withStorageWritable env false) cm itemId newQuantity).1.items =
        (updateQuantity (withStorageWritable env true) cm itemId newQuantity).1.items ∧
      (updateQuantity (withStorageWritable env false) cm itemId newQuantity).2 =
        (updateQuantity (withStorageWritable env true) cm itemId newQuantity).2 ∧
      ∃ r, (updateQuantity (withStorageWritable env false) cm itemId newQuantity).2 = .ok r) ∧
    ((clearCart (withStorageWritable env false) cm).1.items =
        (clearCart (withStorageWritable env true) cm).1.items ∧
      (clearCart (withStorageWritable env false) cm).2 =
        (clearCart (withStorageWritable env true) cm).2 ∧
      (clearCart (withStorageWritable env false) cm).2 = .ok ()) := by
  have hrem : ∀ (e : Env), ∃ r, (removeItem e cm itemId).2 = .ok r := by
    intro e
    rcases first_line_with_id cm.items itemId with hmiss | ⟨pre, L, post, hl, hL, hpre⟩
    · exact ⟨false, by rw [removeItem_missing e cm itemId hmiss]⟩
    · exact ⟨true, (removeItem_found e cm itemId pre L post hl hL hpre).2⟩
  have hupd : ∀ (e : Env), ∃ r, (updateQuantity e cm itemId newQuantity).2 = .ok r := by
    intro e
    by_cases hn : newQuantity ≤ 0
    · have : updateQuantity e cm itemId newQuantity = removeItem e cm itemId := by
        unfold updateQuantity; rw [if_pos hn]
      rw [this]; exact hrem e
    · by_cases hten : newQuantity > 10
      · exact ⟨false, by unfold updateQuantity; rw [if_neg hn, if_pos hten]⟩
      · rcases first_line_with_id cm.items itemId with hmiss | ⟨pre, L, post, hl, hL, hpre⟩
        · exact ⟨false, by rw [updateQuantity_missing e cm itemId newQuantity (by omega) hmiss]⟩
        · exact ⟨true, (updateQuantity_found e cm itemId newQuantity pre L post (by omega)
            (by omega) hl hL hpre).2⟩
  have hclr : ∀ (e : Env), (clearCart e cm).2 = .ok () := by
    intro e
    unfold clearCart
    split_ifs <;> rfl
  have ha1 := addItem_withStorageWritable env false cm dish selectedSize quantity options
  have ha2 := addItem_withStorageWritable env true cm dish selectedSize quantity options
  have hr1 := removeItem_withStorageWritable env false cm itemId
  have hr2 := removeItem_withStorageWritable env true cm itemId
  have hu1 := updateQuantity_withStorageWritable env false cm itemId newQuantity
  have hu2 := updateQuantity_withStorageWritable env true cm itemId newQuantity
  have hc1 := clearCart_withStorageWritable env false cm
  have hc2 := clearCart_withStorageWritable env true cm
  exact ⟨⟨ha1.1.trans ha2.1.symm, ha1.2.trans ha2.2.symm⟩,
    ⟨hr1.1.trans hr2.1.symm, hr1.2.trans hr2.2.symm, hrem _⟩,
    ⟨hu1.1.trans hu2.1.symm, hu1.2.trans hu2.2.symm, hupd _⟩,
    ⟨hc1.1.trans hc2.1.symm, hc1.2.trans hc2.2.symm, hclr _⟩⟩

/-- C22 (counterexample): a non-empty cart over an absent storage key has
unsaved changes although there is no persisted `savedAt` at all. -/
theorem C22_absent_key_counterexample :
    hasUnsavedChanges sampleEnv { emptyCart with items := [sampleLine "fries" "fries" 60 1] } =
      true ∧
    ({ emptyCart with items := [sampleLine "fries" "fries" 60 1] } : CartManager).storage =
      none := by
  decide

/-- C22 (amended): `hasUnsavedChanges` is true exactly when the cart is
non-empty and either the cart key is absent from storage or the persisted
`savedAt` is more than 5 minutes before the current time. -/
theorem C22_hasUnsavedChanges (env : Env) (cm : CartManager) :
    hasUnsavedChanges env cm = true ↔
      cm.items ≠ [] ∧
        (cm.storage = none ∨
          ∃ cartData lastSaved, cm.storage = some cartData ∧
            cartData.savedAt = some lastSaved ∧
            (lastSaved : Int) + 5 * 60 * 1000 < (env.now : Int)) := by
  have hlen : cm.items.length > 0 ↔ cm.items ≠ [] := List.length_pos
  unfold hasUnsavedChanges
  cases hs : cm.storage with
  | none => simp [hlen]
  | some cartData =>
    cases ht : cartData.savedAt with
    | none => simp [ht]
    | some lastSaved =>
      simp only [ht, Bool.and_eq_true, decide_eq_true_eq, hlen]
      constructor
      · rintro ⟨h1, h2⟩
        exact ⟨h2, Or.inr ⟨cartData, lastSaved, rfl, ht, by omega⟩⟩
      · rintro ⟨h1, h2 | ⟨cd, t, h3, h4, h5⟩⟩
        · cases h2
        · cases h3
          rw [ht] at h4
          cases h4
          exact ⟨by omega, h1⟩

theorem maxTimeOf_nonneg (times : List Int) : 0 ≤ maxTimeOf times := by
  cases times with
  | nil => simp [maxTimeOf]
  | cons t ts =>
    have h : ∀ l : List Int, 0 ≤ l.foldr max 0 := by
      intro l
      induction l with
      | nil => simp
      | cons x xs ih => exact le_trans ih (le_max_right _ _)
    exact h _

theorem maxTimeOf_cons (t : Int) (ts : List Int) :
    maxTimeOf (t :: ts) = max t (maxTimeOf ts) := rfl

theorem le_maxTimeOf (times : List Int) : ∀ t ∈ times, t ≤ maxTimeOf times := by
  induction times with
  | nil => simp
  | cons x xs ih =>
    intro t ht
    rw [maxTimeOf_cons]
    rcases List.mem_cons.mp ht with rfl | ht
    · exact le_max_left _ _
    · exact le_trans (ih t ht) (le_max_right _ _)

theorem maxTimeOf_mem (times : List Int) : maxTimeOf times = 0 ∨ maxTimeOf times ∈ times := by
  induction times with
  | nil => left; rfl
  | cons x xs ih =>
    rw [maxTimeOf_cons]
    rcases le_total x (maxTimeOf xs) with h | h
    · rw [max_eq_right h]
      rcases ih with h0 | hm
      · exact Or.inl h0
      · exact Or.inr (List.mem_cons_of_mem _ hm)
    · rw [max_eq_left h]
      exact Or.inr (List.mem_cons_self _ _)

theorem estimatedTime_loop (catalog : List Dish) (items : List LineItem) :
    ∀ a : Int, 0 ≤ a →
      items.foldl (fun maxTime item =>
        match getDishById catalog item.dishId with
        | some dish =>
          if dish.preparationTime ≠ 0 then max maxTime dish.preparationTime else maxTime
        | none => maxTime) a = max a (maxTimeOf (preparationTimes catalog items)) := by
  induction items with
  | nil =>
    intro a ha
    simp [preparationTimes, maxTimeOf, ha]
  | cons x xs ih =>
    intro a ha
    have hM := maxTimeOf_nonneg (preparationTimes catalog xs)
    cases hd : getDishById catalog x.dishId with
    | none =>
      have ht : preparationTimes catalog (x :: xs) = preparationTimes catalog xs := by
        simp [preparationTimes, hd]
      simp only [List.foldl_cons, hd, ht]
      exact ih a ha
    | some d =>
      have ht : preparationTimes catalog (x :: xs) =
          d.preparationTime :: preparationTimes catalog xs := by
        simp [preparationTimes, hd]
      simp only [List.foldl_cons, hd, ht, maxTimeOf_cons]
      by_cases hp : d.preparationTime = 0
      · simp only [hp, ne_eq, not_true_eq_false, if_false]
        rw [ih a ha, max_eq_right hM]
      · simp only [ne_eq, hp, not_false_eq_true, if_true]
        rw [ih _ (le_trans ha (le_max_left _ _)), max_assoc]

/-- C23: `calculateEstimatedTime` is the largest `preparationTime` among the
catalog entries of the lines of the cart, 0 when there is none (the loop
starts from 0, so the value is never below 0), plus
`CONFIG.delivery.estimatedTime.min` = 30. -/
theorem C23_calculateEstimatedTime (catalog : List Dish) (items : List LineItem) :
    calculateEstimatedTime catalog items =
      maxTimeOf (preparationTimes catalog items) + CONFIG.delivery.estimatedTime.min ∧
    CONFIG.delivery.estimatedTime.min = 30 ∧
    (∀ t ∈ preparationTimes catalog items, t ≤ maxTimeOf (preparationTimes catalog items)) ∧
    (maxTimeOf (preparationTimes catalog items) = 0 ∨
      maxTimeOf (preparationTimes catalog items) ∈ preparationTimes catalog items) ∧
    calculateEstimatedTime catalog [] = 30 := by
  refine ⟨?_, rfl, le_maxTimeOf _, maxTimeOf_mem _, rfl⟩
  unfold calculateEstimatedTime
  simp only
  rw [estimatedTime_loop catalog items 0 (le_refl 0),
    max_eq_right (maxTimeOf_nonneg (preparationTimes catalog items))]

/-- C24: the end-to-end scenario. After one `addItem` of the dish the cart has
one line of quantity 1, subtotal 125, fee 30, total 155, and the order is not
valid; after the second the same line has quantity 2, subtotal 250, fee 30,
and the order is valid exactly when the restaurant is open; after the third
the line has quantity 3, subtotal 375, fee 0, total 375. -/
theorem C24_end_to_end_scenario (env : Env) :
    (CONFIG.cart.maxItems = 50 ∧ CONFIG.cart.minOrderAmount = 150 ∧
      CONFIG.cart.freeDeliveryThreshold = 300 ∧ CONFIG.cart.deliveryFee = 30) ∧
    ((runOps emptyCart (scenarioCalls 1)).items.map idPriceQuantity =
        [("shawarma-chicken", 125, 1)] ∧
      getSubtotal (runOps emptyCart (scenarioCalls 1)).items = 125 ∧
      getDeliveryFee (runOps emptyCart (scenarioCalls 1)).items = 30 ∧
      getTotal (runOps emptyCart (scenarioCalls 1)).items = 155 ∧
      isValidOrder env (runOps emptyCart (scenarioCalls 1)).items = false) ∧
    ((runOps emptyCart (scenarioCalls 2)).items.map idPriceQuantity =
        [("shawarma-chicken", 125, 2)] ∧
      getSubtotal (runOps emptyCart (scenarioCalls 2)).items = 250 ∧
      getDeliveryFee (runOps emptyCart (scenarioCalls 2)).items = 30 ∧
      isValidOrder env (runOps emptyCart (scenarioCalls 2)).items = isRestaurantOpen env) ∧
    ((runOps emptyCart (scenarioCalls 3)).items.map idPriceQuantity =
        [("shawarma-chicken", 125, 3)] ∧
      getSubtotal (runOps emptyCart (scenarioCalls 3)).items = 375 ∧
      getDeliveryFee (runOps emptyCart (scenarioCalls 3)).items = 0 ∧
      getTotal (runOps emptyCart (scenarioCalls 3)).items = 375) := by
  have s1 : getSubtotal (runOps emptyCart (scenarioCalls 1)).items = 125 := by decide
  have l1 : (runOps emptyCart (scenarioCalls 1)).items.length = 1 := by decide
  have s2 : getSubtotal (runOps emptyCart (scenarioCalls 2)).items = 250 := by decide
  have l2 : (runOps emptyCart (scenarioCalls 2)).items.length = 1 := by decide
  refine ⟨by decide, ⟨by decide, s1, by decide, by decide, ?_⟩,
    ⟨by decide, s2, by decide, ?_⟩, by decide⟩
  · simp [isValidOrder, s1, CONFIG.cart.minOrderAmount]
  · simp [isValidOrder, s2, l2, CONFIG.cart.minOrderAmount]

/-- C25 (defect): with analytics present, a successful `updateQuantity` emits
exactly one event with the old quantity, the new quantity and the price
difference, but its name is `undefined`: `ANALYTICS_EVENTS` has no key
`CART_QUANTITY_CHANGED`. -/
theorem C25_quantity_event_without_name (env : Env) (cm : CartManager) (lineId : String)
    (newQuantity : Int) (pre : List LineItem) (L : LineItem) (post : List LineItem)
    (ha : env.hasAnalytics = true)
    (hpos : 1 ≤ newQuantity) (hten : newQuantity ≤ 10)
    (hitems : cm.items = pre ++ L :: post) (hL : L.id = lineId)
    (hpre : ∀ x ∈ pre, x.id ≠ lineId) :
    (updateQuantity env cm lineId newQuantity).2 = .ok true ∧
    (updateQuantity env cm lineId newQuantity).1.tracked = cm.tracked ++
      [{ name := none,
         data := [("dish_id", .str L.dishId),
                  ("old_quantity", .num L.quantity),
                  ("new_quantity", .num newQuantity),
                  ("price_difference", .num ((newQuantity - L.quantity) * L.price)),
                  ("component", .str "cart"),
                  ("timestamp", .num env.now)] }] := by
  have hname : analyticsEvent "CART_QUANTITY_CHANGED" = none := by decide
  have hf : findIndex (fun item => item.id == lineId) cm.items = some pre.length := by
    rw [hitems]
    refine findIndex_append_cons _ pre L post (by simp [hL]) ?_
    intro y hy
    simpa using hpre y hy
  have hg : cm.items.get? pre.length = some L := by
    rw [hitems]; exact get?_append_cons_length pre L post
  refine ⟨(updateQuantity_found env cm lineId newQuantity pre L post (by omega) hten
    hitems hL hpre).2, ?_⟩
  unfold updateQuantity
  rw [if_neg (by omega), if_neg (by omega)]
  simp only [hf, hg, hname]
  unfold trackEvent saveCartToStorage
  rw [if_pos ha]
  split_ifs <;> rfl

/-- Witness of C25: `updateQuantity("cola", 4)` on a cart of two lines. -/
theorem C25_quantity_event_without_name_witness :
    (updateQuantity sampleEnv
      { emptyCart with items := [sampleLine "fries" "fries" 60 1, sampleLine "cola" "cola" 35 2] }
      "cola" 4).2 = .ok true ∧
    (updateQuantity sampleEnv
      { emptyCart with items := [sampleLine "fries" "fries" 60 1, sampleLine "cola" "cola" 35 2] }
      "cola" 4).1.tracked = [] ++
      [{ name := none,
         data := [("dish_id", .str "cola"),
                  ("old_quantity", .num 2),
                  ("new_quantity", .num 4),
                  ("price_difference", .num ((4 - 2) * 35)),
                  ("component", .str "cart"),
                  ("timestamp", .num sampleEnv.now)] }] :=
  C25_quantity_event_without_name sampleEnv
    { emptyCart with items := [sampleLine "fries" "fries" 60 1, sampleLine "cola" "cola" 35 2] }
    "cola" 4 [sampleLine "fries" "fries" 60 1] (sampleLine "cola" "cola" 35 2) []
    rfl (by decide) (by decide) rfl rfl (by decide)

/-- C26: `syncWithStorage` sets the item list to the validated stored items
when the stored payload has a `savedAt` less than 30 minutes before the
current time, and leaves the manager unchanged when the payload is absent,
has no `savedAt`, or its `savedAt` is 30 minutes old or older. -/
theorem C26_syncWithStorage (env : Env) (catalog : List Dish) (cm : CartManager) :
    (∀ cartData lastSaved, cm.storage = some cartData → cartData.savedAt = some lastSaved →
      (env.now : Int) - (lastSaved : Int) < 30 * 60 * 1000 →
      (syncWithStorage env catalog cm).items =
        (storedItems cm).filter (fun item => validateCartItem catalog item)) ∧
    (cm.storage = none → syncWithStorage env catalog cm = cm) ∧
    (∀ cartData, cm.storage = some cartData → cartData.savedAt = none →
      syncWithStorage env catalog cm = cm) ∧
    (∀ cartData lastSaved, cm.storage = some cartData → cartData.savedAt = some lastSaved →
      (env.now : Int) - (lastSaved : Int) ≥ 30 * 60 * 1000 →
      syncWithStorage env catalog cm = cm) := by
  refine ⟨?_, ?_, ?_, ?_⟩
  · intro cartData lastSaved h1 h2 h3
    unfold syncWithStorage
    simp only [h1, h2]
    rw [if_pos (by omega), loadCartFromStorage_items]
  · intro h1
    unfold syncWithStorage
    simp only [h1]
  · intro cartData h1 h2
    unfold syncWithStorage
    simp only [h1, h2]
  · intro cartData lastSaved h1 h2 h3
    unfold syncWithStorage
    simp only [h1, h2]
    rw [if_neg (by omega)]

/-- Witness of C26: a payload saved 10 minutes ago is loaded, one saved 30
minutes ago is not. -/
theorem C26_syncWithStorage_witness :
    (syncWithStorage sampleEnv [sampleDish "fries" 60]
      { emptyCart with
        storage := some { items := some [sampleLine "fries" "fries" 60 2],
                          savedAt := some 1699999400000, version := some "1.0" } }).items =
      (storedItems
        { emptyCart with
          storage := some { items := some [sampleLine "fries" "fries" 60 2],
                            savedAt := some 1699999400000, version := some "1.0" } }).filter
        (fun item => validateCartItem [sampleDish "fries" 60] item) ∧
    syncWithStorage sampleEnv [sampleDish "fries" 60]
      { emptyCart with
        storage := some { items := some [sampleLine "fries" "fries" 60 2],
                          savedAt := some 1699998200000, version := some "1.0" } } =
      { emptyCart with
        storage := some { items := some [sampleLine "fries" "fries" 60 2],
                          savedAt := some 1699998200000, version := some "1.0" } } :=
  ⟨(C26_syncWithStorage sampleEnv [sampleDish "fries" 60]
      { emptyCart with
        storage := some { items := some [sampleLine "fries" "fries" 60 2],
                          savedAt := some 1699999400000, version := some "1.0" } }).1
      _ 1699999400000 rfl rfl (by decide),
    (C26_syncWithStorage sampleEnv [sampleDish "fries" 60]
      { emptyCart with
        storage := some { items := some [sampleLine "fries" "fries" 60 2],
                          savedAt := some 1699998200000, version := some "1.0" } }).2.2.2
      _ 1699998200000 rfl rfl (by decide)⟩

theorem filterValidRecords_lines (catalog : List Dish) (lines : List LineItem) :
    filterValidRecords catalog (lines.map some) =
      .ok (lines.filter (fun item => validateCartItem catalog item)) := by
  induction lines with
  | nil => rfl
  | cons x xs ih =>
    by_cases hx : validateCartItem catalog x = true
    · simp [filterValidRecords, hx, ih]
    · simp [filterValidRecords, hx, ih]

theorem filterValidRecords_null (catalog : List Dish) (records : List (Option LineItem))
    (h : none ∈ records) : ∃ e, filterValidRecords catalog records = .error e := by
  induction records with
  | nil => simp at h
  | cons r rs ih =>
    cases r with
    | none => exact ⟨_, rfl⟩
    | some item =>
      have hrs : none ∈ rs := by simpa using h
      obtain ⟨e, he⟩ := ih hrs
      by_cases hx : validateCartItem catalog item = true
      · exact ⟨e, by simp [filterValidRecords, hx, he]⟩
      · exact ⟨e, by simp [filterValidRecords, hx, he]⟩

/-- C27 (counterexample): the payload `{items: [null, fries x2]}` holds an
item that passes `validateCartItem`, but the `null` record makes the filter
throw inside the `try`: `importCart` returns `false` and the list is
unchanged. And with a valid payload but a storage that refuses the write,
`importCart` returns `true` while nothing is stored. -/
theorem C27_null_record_counterexample :
    validateCartItem [sampleDish "fries" 60] (sampleLine "fries" "fries" 60 2) = true ∧
    importCart sampleEnv [sampleDish "fries" 60]
      { emptyCart with items := [sampleLine "fries" "fries" 60 1] }
      (some { items := some [none, some (sampleLine "fries" "fries" 60 2)] }) =
      ({ emptyCart with items := [sampleLine "fries" "fries" 60 1] }, .ok false) ∧
    (importCart (withStorageWritable sampleEnv false) [sampleDish "fries" 60] emptyCart
      (some (importOfLines [sampleLine "fries" "fries" 60 2]))).2 = .ok true ∧
    (importCart (withStorageWritable sampleEnv false) [sampleDish "fries" 60] emptyCart
      (some (importOfLines [sampleLine "fries" "fries" 60 2]))).1.storage = none :=
  ⟨by decide, rfl, rfl, by decide⟩

/-- C27 (amended): when the items array of the parsed payload holds line
objects only and at least one of them passes `validateCartItem`, `importCart`
sets the item list to the valid items in payload order, calls
`saveCartToStorage` on it (a storage that accepts the write then holds that
list) and returns `true`; when the JSON does not parse, the payload has no
items array, or the array holds line objects none of which is valid, it
returns `false` without throwing and leaves the manager unchanged. -/
theorem C27_importCart (env : Env) (catalog : List Dish) (cm : CartManager)
    (cartJson : Option ImportData) :
    (∀ lines, cartJson = some (importOfLines lines) →
      (∃ x ∈ lines, validateCartItem catalog x = true) →
      importCart env catalog cm cartJson =
        (saveCartToStorage env
          { cm with items := lines.filter (fun item => validateCartItem catalog item) },
         .ok true) ∧
      (importCart env catalog cm cartJson).1.items =
        lines.filter (fun item => validateCartItem catalog item) ∧
      (env.storageWritable = true →
        storedItems (importCart env catalog cm cartJson).1 =
          lines.filter (fun item => validateCartItem catalog item))) ∧
    ((cartJson = none ∨ (∃ cartData, cartJson = some cartData ∧ cartData.items = none) ∨
        (∃ lines, cartJson = some (importOfLines lines) ∧
          ∀ x ∈ lines, validateCartItem catalog x = false)) →
      importCart env catalog cm cartJson = (cm, .ok false)) := by
  constructor
  · intro lines h1 h3
    have hpos : (lines.filter (fun item => validateCartItem catalog item)).length > 0 := by
      obtain ⟨x, hx, hv⟩ := h3
      exact List.length_pos_of_mem (List.mem_filter.mpr ⟨hx, hv⟩)
    have heq : importCart env catalog cm cartJson =
        (saveCartToStorage env
          { cm with items := lines.filter (fun item => validateCartItem catalog item) },
         .ok true) := by
      unfold importCart
      simp only [h1, importOfLines, filterValidRecords_lines]
      rw [if_pos hpos]
    refine ⟨heq, by rw [heq]; simp, ?_⟩
    intro hw
    rw [heq]
    exact storedItems_saveCartToStorage env _ hw
  · rintro (h | ⟨cartData, h1, h2⟩ | ⟨lines, h1, h3⟩)
    · unfold importCart
      simp only [h]
    · unfold importCart
      simp only [h1, h2]
    · have hnil : lines.filter (fun item => validateCartItem catalog item) = [] := by
        rw [List.filter_eq_nil_iff]
        intro x hx
        simp [h3 x hx]
      unfold importCart
      simp only [h1, importOfLines, filterValidRecords_lines, hnil]
      rfl

/-- Witness of C27: a payload with one stale and one valid line, and an
unparseable payload. -/
theorem C27_importCart_witness :
    (importCart sampleEnv [sampleDish "fries" 60] emptyCart
      (some (importOfLines
        [sampleLine "cola" "cola" 35 1, sampleLine "fries" "fries" 60 2]))).1.items
      = [sampleLine "cola" "cola" 35 1, sampleLine "fries" "fries" 60 2].filter
          (fun item => validateCartItem [sampleDish "fries" 60] item) ∧
    importCart sampleEnv [sampleDish "fries" 60]
      { emptyCart with items := [sampleLine "fries" "fries" 60 1] } none =
      ({ emptyCart with items := [sampleLine "fries" "fries" 60 1] }, .ok false) :=
  ⟨((C27_importCart sampleEnv [sampleDish "fries" 60] emptyCart
      (some (importOfLines [sampleLine "cola" "cola" 35 1, sampleLine "fries" "fries" 60 2]))).1
      _ rfl ⟨sampleLine "fries" "fries" 60 2, by decide, by decide⟩).2.1,
    (C27_importCart sampleEnv [sampleDish "fries" 60]
      { emptyCart with items := [sampleLine "fries" "fries" 60 1] } none).2 (Or.inl rfl)⟩

/-- The saved cart that `saveCartForLater` builds. -/
theorem saveCartForLater_nonempty (env : Env) (cm : CartManager)
    (stored : Option (List SavedCart)) (hne : cm.items ≠ []) :
    ∃ cartData : SavedCart, cartData.items = cm.items ∧ cartData.id = env.generatedId ∧
      (saveCartForLater env cm stored).2 = some cartData.id ∧
      (saveCartForLater env cm stored).1 =
        if env.storageWritable then
          some (((stored.getD []) ++ [cartData]).drop
            (((stored.getD []) ++ [cartData]).length - 5))
        else stored := by
  have hlen : ¬ cm.items.length = 0 := by simpa using hne
  refine ⟨{ id := env.generatedId, name := "Кошик " ++ env.localeDate, items := cm.items,
            savedAt := env.now, itemCount := getItemCount cm.items,
            total := getTotal cm.items }, rfl, rfl, ?_, ?_⟩
  · unfold saveCartForLater
    rw [if_neg hlen]
  · unfold saveCartForLater
    rw [if_neg hlen]
    simp only
    by_cases h5 : (stored.getD [] ++
        [({ id := env.generatedId, name := "Кошик " ++ env.localeDate, items := cm.items,
            savedAt := env.now, itemCount := getItemCount cm.items,
            total := getTotal cm.items } : SavedCart)]).length > 5
    · rw [if_pos h5]
    · rw [if_neg h5]
      have h0 : (stored.getD [] ++
          [({ id := env.generatedId, name := "Кошик " ++ env.localeDate, items := cm.items,
              savedAt := env.now, itemCount := getItemCount cm.items,
              total := getTotal cm.items } : SavedCart)]).length - 5 = 0 := by omega
      rw [h0, List.drop_zero]

/-- C28 (counterexample): the storage refuses the write (quota exceeded);
the cart is not empty, yet the stored list stays empty instead of holding
the new saved cart. -/
theorem C28_failed_write_counterexample :
    ({ emptyCart with items := [sampleLine "fries" "fries" 60 1] } : CartManager).items ≠ [] ∧
    (saveCartForLater (withStorageWritable sampleEnv false)
      { emptyCart with items := [sampleLine "fries" "fries" 60 1] } (some [])).1 = some [] ∧
    (saveCartForLater (withStorageWritable sampleEnv false)
      { emptyCart with items := [sampleLine "fries" "fries" 60 1] } (some [])).2 =
      some sampleEnv.generatedId := by
  decide

/-- C28 (amended): for a non-empty cart and a storage that accepts the write,
after `saveCartForLater` the stored list is the last `min(n+1, 5)` entries of
the previous list of `n` saved carts followed by the new saved cart, that is
the last `min(n, 4)` previous entries and then the new cart; its length is
`min(n+1, 5)`. For an empty cart, or when the write fails, the stored list is
not modified. -/
theorem C28_saveCartForLater (env : Env) (cm : CartManager) (stored : Option (List SavedCart)) :
    (cm.items ≠ [] → env.storageWritable = true →
      ∃ cartData : SavedCart, cartData.items = cm.items ∧
        (saveCartForLater env cm stored).1 =
          some (((stored.getD []) ++ [cartData]).drop
            (((stored.getD []).length + 1) - min ((stored.getD []).length + 1) 5)) ∧
        (saveCartForLater env cm stored).1 =
          some ((stored.getD []).drop ((stored.getD []).length - 4) ++ [cartData]) ∧
        ((saveCartForLater env cm stored).1.getD []).length =
          min ((stored.getD []).length + 1) 5) ∧
    (cm.items = [] → (saveCartForLater env cm stored).1 = stored) ∧
    (env.storageWritable = false → (saveCartForLater env cm stored).1 = stored) := by
  refine ⟨?_, ?_, ?_⟩
  · intro hne hw
    obtain ⟨cartData, hitems, _, _, hstored⟩ := saveCartForLater_nonempty env cm stored hne
    rw [if_pos hw] at hstored
    have hk : ((stored.getD []) ++ [cartData]).length - 5 = (stored.getD []).length - 4 := by
      simp only [List.length_append, List.length_singleton]
      omega
    have hdrop : ((stored.getD []) ++ [cartData]).drop ((stored.getD []).length - 4) =
        (stored.getD []).drop ((stored.getD []).length - 4) ++ [cartData] :=
      List.drop_append_of_le_length (Nat.sub_le _ _)
    refine ⟨cartData, hitems, ?_, ?_, ?_⟩
    · rw [hstored, hk]
      congr 2
      omega
    · rw [hstored, hk, hdrop]
    · rw [hstored, hk, hdrop]
      simp only [Option.getD_some, List.length_append, List.length_drop, List.length_singleton]
      omega
  · intro he
    unfold saveCartForLater
    rw [if_pos (by simp [he])]
  · intro hw
    by_cases he : cm.items = []
    · unfold saveCartForLater
      rw [if_pos (by simp [he])]
    · obtain ⟨cartData, _, _, _, hstored⟩ := saveCartForLater_nonempty env cm stored he
      rw [hstored, if_neg (by simp [hw])]

/-- Witness of C28: a first saved cart on an absent key. -/
theorem C28_saveCartForLater_witness :
    ∃ cartData : SavedCart,
      cartData.items = [sampleLine "fries" "fries" 60 1] ∧
      (saveCartForLater sampleEnv { emptyCart with items := [sampleLine "fries" "fries" 60 1] }
        none).1 =
        some ((([] : List SavedCart) ++ [cartData]).drop
          (((([] : List SavedCart)).length + 1) - min ((([] : List SavedCart)).length + 1) 5)) ∧
      (saveCartForLater sampleEnv { emptyCart with items := [sampleLine "fries" "fries" 60 1] }
        none).1 =
        some ((([] : List SavedCart)).drop ((([] : List SavedCart)).length - 4) ++ [cartData]) ∧
      ((saveCartForLater sampleEnv { emptyCart with items := [sampleLine "fries" "fries" 60 1] }
        none).1.getD []).length = min ((([] : List SavedCart)).length + 1) 5 :=
  (C28_saveCartForLater sampleEnv { emptyCart with items := [sampleLine "fries" "fries" 60 1] }
    none).1 (by decide) rfl

theorem getItemCount_append_singleton (items : List LineItem) (item : LineItem) :
    getItemCount (items ++ [item]) = getItemCount items + item.quantity := by
  simp [getItemCount_eq_sum]

theorem getItemCount_set_quantity (pre : List LineItem) (L : LineItem) (post : List LineItem)
    (n : Int) (t : Timestamp) :
    getItemCount (pre ++ { L with quantity := n, updatedAt := t } :: post) =
      getItemCount (pre ++ L :: post) - L.quantity + n := by
  simp only [getItemCount_eq_sum, List.map_append, List.map_cons, List.sum_append, List.sum_cons]
  omega

theorem createCartItem_id_of_toLowerCase (env env2 : Env) (d : Dish) (s : Option Size)
    (q q2 : Int) (h : env2.toLowerCase = env.toLowerCase) :
    (createCartItem env2 d s q2 {}).id = (createCartItem env d s q {}).id := by
  rw [createCartItem_id_default, createCartItem_id_default, h]

theorem accepted_error (cm : CartManager) (e : JsError) :
    accepted (cm, (.error e : Except JsError Bool)) := by
  simp [accepted]

theorem addItem_accepted_guards (env : Env) (cm : CartManager) (d : Dish) (s : Option Size)
    (q : Int) (o : Options) (h : accepted (addItem env cm (some d) s q o)) :
    d.id ≠ "" ∧ getItemCount cm.items + q ≤ CONFIG.cart.maxItems := by
  constructor
  · intro hid
    exact h (by rw [addItem_guard_reject env cm (some d) s q o (Or.inr (Or.inl ⟨d, rfl, hid⟩))])
  · by_contra hmax
    exact h (by rw [addItem_guard_reject env cm (some d) s q o
      (Or.inr (Or.inr (Or.inr (by omega))))])

theorem addItem_accepted_existing (env : Env) (cm : CartManager) (d : Dish) (s : Option Size)
    (q : Int) (o : Options) (pre : List LineItem) (L : LineItem) (post : List LineItem)
    (h : accepted (addItem env cm (some d) s q o))
    (hitems : cm.items = pre ++ L :: post)
    (hL : L.id = (createCartItem env d s q o).id)
    (hpre : ∀ x ∈ pre, x.id ≠ (createCartItem env d s q o).id) :
    L.quantity + q ≤ 10 := by
  by_contra hten
  exact h (by rw [addItem_existing_reject env cm d s q o pre L post hitems hL hpre (by omega)])

/-- C29: if `addItem(dish, size, a)` and then `addItem(dish, size, b)` are both
accepted (`a > 0`, `b > 0`, no extra fields), then `addItem(dish, size, a + b)`
on the original state is accepted too, and the two item lists have the same
ids in the same order with the same price and quantity on every line. -/
theorem C29_split_add (env1 env2 env3 : Env) (cm : CartManager) (d : Dish) (s : Option Size)
    (a b : Int)
    (hlow2 : env2.toLowerCase = env1.toLowerCase) (hlow3 : env3.toLowerCase = env1.toLowerCase)
    (ha : 0 < a) (hb : 0 < b)
    (h1 : accepted (addItem env1 cm (some d) s a {}))
    (h2 : accepted (addItem env2 (addItem env1 cm (some d) s a {}).1 (some d) s b {})) :
    accepted (addItem env3 cm (some d) s (a + b) {}) ∧
    (addItem env3 cm (some d) s (a + b) {}).1.items.map idPriceQuantity =
      (addItem env2 (addItem env1 cm (some d) s a {}).1 (some d) s b {}).1.items.map
        idPriceQuantity := by
  have hid2 := createCartItem_id_of_toLowerCase env1 env2 d s a b hlow2
  have hid3 := createCartItem_id_of_toLowerCase env1 env3 d s a (a + b) hlow3
  obtain ⟨hdid, hmax1⟩ := addItem_accepted_guards env1 cm d s a {} h1
  rcases first_line_with_id cm.items (createCartItem env1 d s a {}).id with
    hnew | ⟨pre, L, post, hl, hL, hpre⟩
  · obtain ⟨e1, he1⟩ := addItem_new_accept env1 cm d s a {} hdid ha hmax1 hnew
    rw [he1] at h2 ⊢
    have hitems1 : (saveCartToStorage env1
        { cm with items := cm.items ++ [createCartItem env1 d s a {}] }).items =
        cm.items ++ createCartItem env1 d s a {} :: [] := by simp
    have hcount1 : getItemCount (saveCartToStorage env1
        { cm with items := cm.items ++ [createCartItem env1 d s a {}] }).items =
        getItemCount cm.items + a := by
      rw [saveCartToStorage_items]
      exact getItemCount_append_singleton cm.items _
    obtain ⟨_, hmax2⟩ := addItem_accepted_guards env2 _ d s b {} h2
    rw [hcount1] at hmax2
    have hL1 : (createCartItem env1 d s a {}).id = (createCartItem env2 d s b {}).id := hid2.symm
    have hpre1 : ∀ x ∈ cm.items, x.id ≠ (createCartItem env2 d s b {}).id := by
      rw [hid2]; exact hnew
    have hten := addItem_accepted_existing env2 _ d s b {} cm.items
      (createCartItem env1 d s a {}) [] h2 hitems1 hL1 hpre1
    obtain ⟨e2, he2⟩ := addItem_existing_accept env2 _ d s b {} cm.items
      (createCartItem env1 d s a {}) [] hdid hb (by rw [hcount1]; omega) hitems1 hL1 hpre1 hten
    obtain ⟨e3, he3⟩ := addItem_new_accept env3 cm d s (a + b) {} hdid (by omega) (by omega)
      (by rw [hid3]; exact hnew)
    rw [he2, he3]
    refine ⟨accepted_error _ _, ?_⟩
    simp only [saveCartToStorage_items, List.map_append, List.map_cons, List.map_nil]
    congr 1
    cases s <;> simp [idPriceQuantity, createCartItem, hlow3]
  · obtain ⟨hten1⟩ : Nonempty (L.quantity + a ≤ 10) :=
      ⟨addItem_accepted_existing env1 cm d s a {} pre L post h1 hl hL hpre⟩
    obtain ⟨e1, he1⟩ := addItem_existing_accept env1 cm d s a {} pre L post hdid ha hmax1
      hl hL hpre hten1
    rw [he1] at h2 ⊢
    have hitems1 : (saveCartToStorage env1
        { cm with items :=
            pre ++ { L with quantity := L.quantity + a, updatedAt := env1.now } :: post }).items =
        pre ++ { L with quantity := L.quantity + a, updatedAt := env1.now } :: post := by simp
    have hcount1 : getItemCount (saveCartToStorage env1
        { cm with items :=
            pre ++ { L with quantity := L.quantity + a, updatedAt := env1.now } :: post }).items =
        getItemCount cm.items + a := by
      rw [saveCartToStorage_items, getItemCount_set_quantity, ← hl]
      omega
    obtain ⟨_, hmax2⟩ := addItem_accepted_guards env2 _ d s b {} h2
    rw [hcount1] at hmax2
    have hL1 : ({ L with quantity := L.quantity + a, updatedAt := env1.now } : LineItem).id =
        (createCartItem env2 d s b {}).id := by rw [hid2]; exact hL
    have hpre1 : ∀ x ∈ pre, x.id ≠ (createCartItem env2 d s b {}).id := by
      rw [hid2]; exact hpre
    have hten2 := addItem_accepted_existing env2 _ d s b {} pre
      { L with quantity := L.quantity + a, updatedAt := env1.now } post h2 hitems1 hL1 hpre1
    obtain ⟨e2, he2⟩ := addItem_existing_accept env2 _ d s b {} pre
      { L with quantity := L.quantity + a, updatedAt := env1.now } post hdid hb
      (by rw [hcount1]; omega) hitems1 hL1 hpre1 hten2
    have hten3 : L.quantity + (a + b) ≤ 10 := by
      have : L.quantity + a + b ≤ 10 := hten2
      omega
    obtain ⟨e3, he3⟩ := addItem_existing_accept env3 cm d s (a + b) {} pre L post hdid
      (by omega) (by omega) hl (by rw [hid3]; exact hL) (by rw [hid3]; exact hpre) hten3
    rw [he2, he3]
    refine ⟨accepted_error _ _, ?_⟩
    simp only [saveCartToStorage_items, List.map_append, List.map_cons, idPriceQuantity]
    congr 3
    simp only [Prod.mk.injEq, true_and]
    omega

/-- Witness of C29: one unit and then two more of a dish not yet in the cart. -/
theorem C29_split_add_witness :
    accepted (addItem sampleEnv { emptyCart with items := [sampleLine "fries" "fries" 60 1] }
      (some (sampleDish "cola" 35)) none (1 + 2) {}) ∧
    (addItem sampleEnv { emptyCart with items := [sampleLine "fries" "fries" 60 1] }
      (some (sampleDish "cola" 35)) none (1 + 2) {}).1.items.map idPriceQuantity =
      (addItem sampleEnv
        (addItem sampleEnv { emptyCart with items := [sampleLine "fries" "fries" 60 1] }
          (some (sampleDish "cola" 35)) none 1 {}).1
        (some (sampleDish "cola" 35)) none 2 {}).1.items.map idPriceQuantity :=
  C29_split_add sampleEnv sampleEnv sampleEnv
    { emptyCart with items := [sampleLine "fries" "fries" 60 1] } (sampleDish "cola" 35) none 1 2
    rfl rfl (by decide) (by decide)
    (fun h => Except.noConfusion h) (fun h => Except.noConfusion h)

theorem find?_append_cons {α : Type} (p : α → Bool) (pre : List α) (x : α) (post : List α)
    (hx : p x = true) (hpre : ∀ y ∈ pre, p y = false) :
    (pre ++ x :: post).find? p = some x := by
  induction pre with
  | nil => simp [hx]
  | cons y ys ih =>
    have hy : p y = false := hpre y (by simp)
    have hys : ∀ z ∈ ys, p z = false := fun z hz => hpre z (by simp [hz])
    simp [hy, ih hys]

theorem findItem_key (env env2 : Env) (d : Dish) (s : Option Size) (q : Int)
    (hlow : env2.toLowerCase = env.toLowerCase)
    (hname : ∀ size, s = some size → size.name ≠ "") (items : List LineItem) :
    findItem env2 items d.id (s.map (·.name)) =
      items.find? (fun item => item.id == (createCartItem env d s q {}).id) := by
  rw [createCartItem_id_default]
  unfold findItem
  cases s with
  | none => simp
  | some size =>
    have hn : size.name ≠ "" := hname size rfl
    simp [hn, hlow, String.append_assoc]

theorem findItem_first_match (env env2 : Env) (d : Dish) (s : Option Size) (q : Int)
    (hlow : env2.toLowerCase = env.toLowerCase)
    (hname : ∀ size, s = some size → size.name ≠ "")
    (pre : List LineItem) (line : LineItem) (post : List LineItem)
    (hline : line.id = (createCartItem env d s q {}).id)
    (hpre : ∀ x ∈ pre, x.id ≠ (createCartItem env d s q {}).id) :
    findItem env2 (pre ++ line :: post) d.id (s.map (·.name)) = some line := by
  rw [findItem_key env env2 d s q hlow hname]
  exact find?_append_cons _ pre line post (by simp [hline]) (fun y hy => by simpa using hpre y hy)

/-- C30: after an accepted `addItem(dish, size, q)` (no extra fields, a size
with a non-empty name or no size), the line that the call appended or
incremented is the one `findItem(dish.id, size name)` returns, `hasItem` is
true and `getItemQuantity` is the quantity of that line; and for every cart
and arguments `getItemQuantity > 0` implies `hasItem`. -/
theorem C30_lookup_agrees_with_line_id (env env2 : Env) (cm : CartManager) (d : Dish)
    (s : Option Size) (q : Int)
    (hlow : env2.toLowerCase = env.toLowerCase)
    (hname : ∀ size, s = some size → size.name ≠ "")
    (hq : 0 < q)
    (hacc : accepted (addItem env cm (some d) s q {})) :
    (∃ line,
      (((∀ x ∈ cm.items, x.id ≠ line.id) ∧ line = createCartItem env d s q {} ∧
          (addItem env cm (some d) s q {}).1.items = cm.items ++ [line]) ∨
        (∃ pre L post, cm.items = pre ++ L :: post ∧
          line = { L with quantity := L.quantity + q, updatedAt := env.now } ∧
          (addItem env cm (some d) s q {}).1.items = pre ++ line :: post)) ∧
      findItem env2 (addItem env cm (some d) s q {}).1.items d.id (s.map (·.name)) = some line ∧
      hasItem env2 (addItem env cm (some d) s q {}).1.items d.id (s.map (·.name)) = true ∧
      getItemQuantity env2 (addItem env cm (some d) s q {}).1.items d.id (s.map (·.name)) =
        line.quantity) ∧
    (∀ (items : List LineItem) (dishId : String) (size : Option String),
      getItemQuantity env2 items dishId size > 0 → hasItem env2 items dishId size = true) := by
  constructor
  · obtain ⟨hdid, hmax⟩ := addItem_accepted_guards env cm d s q {} hacc
    rcases first_line_with_id cm.items (createCartItem env d s q {}).id with
      hnew | ⟨pre, L, post, hl, hL, hpre⟩
    · obtain ⟨e, he⟩ := addItem_new_accept env cm d s q {} hdid hq hmax hnew
      have hitems : (addItem env cm (some d) s q {}).1.items =
          cm.items ++ [createCartItem env d s q {}] := by rw [he]; simp
      have hfind : findItem env2 (addItem env cm (some d) s q {}).1.items d.id
          (s.map (·.name)) = some (createCartItem env d s q {}) := by
        rw [hitems]
        exact findItem_first_match env env2 d s q hlow hname cm.items _ [] rfl hnew
      refine ⟨createCartItem env d s q {}, Or.inl ⟨hnew, rfl, hitems⟩, hfind, ?_, ?_⟩
      · simp [hasItem, hfind]
      · simp [getItemQuantity, hfind]
    · have hten := addItem_accepted_existing env cm d s q {} pre L post hacc hl hL hpre
      obtain ⟨e, he⟩ := addItem_existing_accept env cm d s q {} pre L post hdid hq hmax
        hl hL hpre hten
      have hitems : (addItem env cm (some d) s q {}).1.items =
          pre ++ { L with quantity := L.quantity + q, updatedAt := env.now } :: post := by
        rw [he]; simp
      have hfind : findItem env2 (addItem env cm (some d) s q {}).1.items d.id
          (s.map (·.name)) =
          some { L with quantity := L.quantity + q, updatedAt := env.now } := by
        rw [hitems]
        exact findItem_first_match env env2 d s q hlow hname pre _ post hL hpre
      refine ⟨{ L with quantity := L.quantity + q, updatedAt := env.now },
        Or.inr ⟨pre, L, post, hl, rfl, hitems⟩, hfind, ?_, ?_⟩
      · simp [hasItem, hfind]
      · simp [getItemQuantity, hfind]
  · intro items dishId size hpos
    unfold getItemQuantity at hpos
    unfold hasItem
    cases hf : findItem env2 items dishId size with
    | none => simp [hf] at hpos
    | some item => rfl

/-- Witness of C30: a sized dish added to a cart that holds another line. -/
theorem C30_lookup_agrees_with_line_id_witness :
    hasItem sampleEnv
      (addItem sampleEnv { emptyCart with items := [sampleLine "fries" "fries" 60 1] }
        (some (sampleDish "shawarma-chicken" 125))
        (some { name := "Mini", price := 115, weight := none }) 2 {}).1.items
      "shawarma-chicken" ((some { name := "Mini", price := 115, weight := none } : Option Size).map
        (·.name)) = true :=
  (C30_lookup_agrees_with_line_id sampleEnv sampleEnv
    { emptyCart with items := [sampleLine "fries" "fries" 60 1] }
    (sampleDish "shawarma-chicken" 125) (some { name := "Mini", price := 115, weight := none }) 2
    rfl (by intro size h; cases h; decide) (by decide)
    (fun h => Except.noConfusion h)).1.choose_spec.2.2.1

end ArmenianGrill
